import Mathlib

/-!
Verification development for the HaxBall-clone game server.

The JavaScript sources are shallowly embedded here:
* `PhysicsEngine` (physics.js): integration, boundary constraint, collision
  detection/resolution, goal detection.  JS numbers are modelled as real
  numbers, `Math.sqrt` as `Real.sqrt`, `Math.abs` as `|·|`, `Math.round` as
  `fun x => ⌊x + 1/2⌋` (JS rounds halves toward +∞).
* `Player` (player.js): team assignment, kickoff reset, snapshot rounding.
* `GameRoom` (gameRoom.js): team bookkeeping, the per-tick update
  (`updateGame`), the collision pass (`checkCollisions`), and goal handling.
JS `Map` iteration order is insertion order, so the room's player collection
is a `List` traversed in order; the in-place mutation of player objects during
the collision pass is modelled by threading updated values through the pass
and merging them back (`mergeTeamed`), which reproduces the aliasing between
the filtered player array and the room's map.
-/

namespace HaxBall

open Classical

noncomputable section

/-- A kinematic entity: any JS object with `x`, `y`, `vx`, `vy` fields
(players' physics bodies and the ball). -/
@[ext]
structure Obj where
  x : ℝ
  y : ℝ
  vx : ℝ
  vy : ℝ

/-- The two scoring teams (`'red'` / `'blue'` in the source; a `null` team,
i.e. a spectator, is `Option.none` at use sites). -/
inductive Team where
  | red
  | blue
deriving DecidableEq

/-- Directional input intent `{up, down, left, right}`. -/
structure InputState where
  up : Bool
  down : Bool
  left : Bool
  right : Bool

/-- Server-side player (player.js): identity, kinematics, team, input intent
and the last-input timestamp used by `isActive`. -/
@[ext]
structure Player where
  id : ℕ
  nickname : String
  kin : Obj
  team : Option Team
  input : InputState
  lastSeen : ℝ

namespace PhysicsEngine

/-- `this.friction = 0.98` -/
def friction : ℝ := 0.98

/-- `this.bounceRestitution = 0.8` -/
def bounceRestitution : ℝ := 0.8

/-- `this.playerRadius = 15` -/
def playerRadius : ℝ := 15

/-- `this.ballRadius = 10` -/
def ballRadius : ℝ := 10

/-- `this.maxSpeed = 5` -/
def maxSpeed : ℝ := 5

/-- `this.acceleration = 0.5` -/
def acceleration : ℝ := 0.5

/-- `const fieldWidth = 800` -/
def fieldWidth : ℝ := 800

/-- `const fieldHeight = 400` -/
def fieldHeight : ℝ := 400

/-- `const goalHeight = 80` -/
def goalHeight : ℝ := 80

/-- `const goalDepth = 20` -/
def goalDepth : ℝ := 20

/-- `const goalTop = (fieldHeight - goalHeight) / 2` (= 160) -/
def goalTop : ℝ := (fieldHeight - goalHeight) / 2

/-- `const goalBottom = goalTop + goalHeight` (= 240) -/
def goalBottom : ℝ := goalTop + goalHeight

/-- `PhysicsEngine.distance(obj1, obj2)`. -/
def distance (o1 o2 : Obj) : ℝ :=
  Real.sqrt ((o1.x - o2.x) * (o1.x - o2.x) + (o1.y - o2.y) * (o1.y - o2.y))

/-- `PhysicsEngine.normalize(vector)`: zero vector maps to zero. -/
def normalize (v : ℝ × ℝ) : ℝ × ℝ :=
  let magnitude := Real.sqrt (v.1 * v.1 + v.2 * v.2)
  if magnitude = 0 then (0, 0) else (v.1 / magnitude, v.2 / magnitude)

/-- `PhysicsEngine.dotProduct(v1, v2)`. -/
def dotProduct (v1 v2 : ℝ × ℝ) : ℝ := v1.1 * v2.1 + v1.2 * v2.2

/-- First block of `constrainToBounds`: the left wall with its goal
aperture. -/
def constrainLeft (o : Obj) (radius : ℝ) : Obj :=
  if o.x - radius < 0 then
    if goalTop ≤ o.y ∧ o.y ≤ goalBottom then
      if o.x - radius < -goalDepth then
        { o with x := -goalDepth + radius, vx := |o.vx| * bounceRestitution }
      else o
    else { o with x := radius, vx := |o.vx| * bounceRestitution }
  else o

/-- Second block of `constrainToBounds`: the right wall with its goal
aperture. -/
def constrainRight (o : Obj) (radius : ℝ) : Obj :=
  if o.x + radius > fieldWidth then
    if goalTop ≤ o.y ∧ o.y ≤ goalBottom then
      if o.x + radius > fieldWidth + goalDepth then
        { o with x := fieldWidth + goalDepth - radius,
                 vx := -|o.vx| * bounceRestitution }
      else o
    else { o with x := fieldWidth - radius, vx := -|o.vx| * bounceRestitution }
  else o

/-- Third block of `constrainToBounds`: the top wall. -/
def constrainTop (o : Obj) (radius : ℝ) : Obj :=
  if o.y - radius < 0 then { o with y := radius, vy := |o.vy| * bounceRestitution }
  else o

/-- Fourth block of `constrainToBounds`: the bottom wall. -/
def constrainBottom (o : Obj) (radius : ℝ) : Obj :=
  if o.y + radius > fieldHeight then
    { o with y := fieldHeight - radius, vy := -|o.vy| * bounceRestitution }
  else o

/-- `constrainToBounds(obj, radius)`: the four sequential wall checks, in
source order (left, right, top, bottom), each seeing the previous block's
mutations. -/
def constrainToBounds (o : Obj) (radius : ℝ) : Obj :=
  constrainBottom (constrainTop (constrainRight (constrainLeft o radius) radius)
    radius) radius

/-- `updatePlayer(player, input, deltaTime)`: input acceleration, speed cap,
friction, position integration, then `constrainToBounds`. -/
def updatePlayer (p : Obj) (input : InputState) (dt : ℝ) : Obj :=
  let vy1 := if input.up then p.vy - acceleration else p.vy
  let vy2 := if input.down then vy1 + acceleration else vy1
  let vx1 := if input.left then p.vx - acceleration else p.vx
  let vx2 := if input.right then vx1 + acceleration else vx1
  let speed := Real.sqrt (vx2 * vx2 + vy2 * vy2)
  let vx3 := if speed > maxSpeed then vx2 / speed * maxSpeed else vx2
  let vy3 := if speed > maxSpeed then vy2 / speed * maxSpeed else vy2
  let vx4 := vx3 * friction
  let vy4 := vy3 * friction
  constrainToBounds
    { x := p.x + vx4 * dt, y := p.y + vy4 * dt, vx := vx4, vy := vy4 } playerRadius

/-- `updateBall(ball, deltaTime)`: friction, integration, constraint. -/
def updateBall (b : Obj) (dt : ℝ) : Obj :=
  let vx1 := b.vx * friction
  let vy1 := b.vy * friction
  constrainToBounds
    { x := b.x + vx1 * dt, y := b.y + vy1 * dt, vx := vx1, vy := vy1 } ballRadius

/-- `checkCollision(obj1, obj2, radius1, radius2)`. -/
def checkCollision (o1 o2 : Obj) (r1 r2 : ℝ) : Prop :=
  distance o1 o2 < r1 + r2

/-- `resolveCollision(obj1, obj2, radius1, radius2, mass1, mass2)`:
positional separation by half the overlap along the collision normal,
then (unless already separating) the restitution impulse. -/
def resolveCollision (o1 o2 : Obj) (r1 r2 m1 m2 : ℝ) : Obj × Obj :=
  let dist := distance o1 o2
  let minDistance := r1 + r2
  if dist ≥ minDistance then (o1, o2)
  else
    let dx := o2.x - o1.x
    let dy := o2.y - o1.y
    let normal := normalize (dx, dy)
    let overlap := minDistance - dist
    let separation := overlap / 2
    let o1s := { o1 with x := o1.x - normal.1 * separation,
                         y := o1.y - normal.2 * separation }
    let o2s := { o2 with x := o2.x + normal.1 * separation,
                         y := o2.y + normal.2 * separation }
    let relativeVelocity : ℝ × ℝ := (o2s.vx - o1s.vx, o2s.vy - o1s.vy)
    let velocityAlongNormal := dotProduct relativeVelocity normal
    if velocityAlongNormal > 0 then (o1s, o2s)
    else
      let impulseScalar :=
        -(1 + bounceRestitution) * velocityAlongNormal / (1 / m1 + 1 / m2)
      let impulse : ℝ × ℝ := (impulseScalar * normal.1, impulseScalar * normal.2)
      ({ o1s with vx := o1s.vx - impulse.1 / m1, vy := o1s.vy - impulse.2 / m1 },
       { o2s with vx := o2s.vx + impulse.1 / m2, vy := o2s.vy + impulse.2 / m2 })

/-- `checkGoal(ball)`: `'blue'` for a left breach inside the goal span,
`'red'` for a right breach, `null` otherwise. -/
def checkGoal (ball : Obj) : Option Team :=
  if ball.x < 0 ∧ goalTop ≤ ball.y ∧ ball.y ≤ goalBottom then some Team.blue
  else if ball.x > fieldWidth ∧ goalTop ≤ ball.y ∧ ball.y ≤ goalBottom then
    some Team.red
  else none

/-- `resetBall(ball)`: recenter with zero velocity. -/
def resetBall (_ball : Obj) : Obj := { x := 400, y := 200, vx := 0, vy := 0 }

end PhysicsEngine

/-- `Player.setTeam(team)`: sets the team, teleports to the team's fixed
spot and zeroes the velocity. -/
def Player.setTeam (p : Player) (team : Option Team) : Player :=
  if team = some Team.red then
    { p with team := team, kin := { x := 100, y := 200, vx := 0, vy := 0 } }
  else if team = some Team.blue then
    { p with team := team, kin := { x := 700, y := 200, vx := 0, vy := 0 } }
  else
    { p with team := team, kin := { x := 400, y := 50, vx := 0, vy := 0 } }

/-- `Player.resetPosition()`: teamed players go back to their kickoff spot;
velocity is zeroed unconditionally. -/
def Player.resetPosition (p : Player) : Player :=
  let p1 :=
    if p.team = some Team.red then { p with kin := { p.kin with x := 100, y := 200 } }
    else if p.team = some Team.blue then
      { p with kin := { p.kin with x := 700, y := 200 } }
    else p
  { p1 with kin := { p1.kin with vx := 0, vy := 0 } }

/-- `Player.isActive()`: the last input arrived less than 5000 ms ago. -/
def Player.isActive (p : Player) (now : ℝ) : Prop := now - p.lastSeen < 5000

/-- JS `Math.round`: nearest integer, halves toward `+∞`. -/
def jsRound (x : ℝ) : ℝ := (⌊x + 1 / 2⌋ : ℤ)

/-- `Math.round(v * 100) / 100`: round to 2 decimal digits. -/
def round2 (x : ℝ) : ℝ := jsRound (x * 100) / 100

/-- The per-player record emitted in a game-state snapshot
(`Player.getGameData`). -/
structure GameData where
  id : ℕ
  nickname : String
  x : ℝ
  y : ℝ
  vx : ℝ
  vy : ℝ
  team : Option Team

/-- `Player.getGameData()`: positions and velocities rounded to 2 decimals. -/
def Player.getGameData (p : Player) : GameData :=
  { id := p.id, nickname := p.nickname,
    x := round2 p.kin.x, y := round2 p.kin.y,
    vx := round2 p.kin.vx, vy := round2 p.kin.vy, team := p.team }

/-- The mutable per-room state touched by the claims: player list (in map
insertion order), ball, score, team counters and the two clocks. -/
@[ext]
structure GameRoom where
  players : List Player
  ball : Obj
  scoreRed : ℕ
  scoreBlue : ℕ
  redTeamCount : ℤ
  blueTeamCount : ℤ
  lastUpdate : ℝ
  gameTime : ℝ

/-- `this.maxTeamSize = 4` -/
def maxTeamSize : ℤ := 4

namespace GameRoom

/-- `GameRoom.autoAssignTeam(player)`: red if under cap and not larger than
blue, else blue if under cap, else spectator; returns the updated room
counters and the (mutated) player. -/
def autoAssignTeam (r : GameRoom) (p : Player) : GameRoom × Player :=
  if r.redTeamCount < maxTeamSize ∧ r.redTeamCount ≤ r.blueTeamCount then
    ({ r with redTeamCount := r.redTeamCount + 1 }, p.setTeam (some Team.red))
  else if r.blueTeamCount < maxTeamSize then
    ({ r with blueTeamCount := r.blueTeamCount + 1 }, p.setTeam (some Team.blue))
  else (r, p.setTeam none)

/-- Mutating the one player object stored under `pid` in the JS `Map`:
update the first (unique) list entry with that id. -/
def updateFirst (ps : List Player) (pid : ℕ) (f : Player → Player) : List Player :=
  match ps with
  | [] => []
  | p :: rest => if p.id = pid then f p :: rest else p :: updateFirst rest pid f

/-- Targets accepted by `switchPlayerTeam`: `'red'`, `'blue'`,
`'spectator'`/`null`. -/
inductive SwitchTarget where
  | red
  | blue
  | spectator
deriving DecidableEq

/-- The team stored for a switch target (`null` for spectator). -/
def SwitchTarget.toTeam : SwitchTarget → Option Team
  | .red => some Team.red
  | .blue => some Team.blue
  | .spectator => none

/-- `GameRoom.switchPlayerTeam(playerId, newTeam)`: decrement the current
team's counter, admit the switch if the target has space (spectator always),
otherwise restore the decremented counter and report failure. -/
def switchPlayerTeam (r : GameRoom) (pid : ℕ) (newTeam : SwitchTarget) :
    GameRoom × Bool :=
  match r.players.find? (fun p => p.id == pid) with
  | none => (r, false)
  | some player =>
    let red1 := if player.team = some Team.red then r.redTeamCount - 1
                else r.redTeamCount
    let blue1 := if player.team = some Team.blue then r.blueTeamCount - 1
                 else r.blueTeamCount
    if newTeam = SwitchTarget.red ∧ red1 < maxTeamSize then
      ({ r with players := updateFirst r.players pid (Player.setTeam · (some Team.red)),
                redTeamCount := red1 + 1, blueTeamCount := blue1 }, true)
    else if newTeam = SwitchTarget.blue ∧ blue1 < maxTeamSize then
      ({ r with players := updateFirst r.players pid (Player.setTeam · (some Team.blue)),
                redTeamCount := red1, blueTeamCount := blue1 + 1 }, true)
    else if newTeam = SwitchTarget.spectator then
      ({ r with players := updateFirst r.players pid (Player.setTeam · none),
                redTeamCount := red1, blueTeamCount := blue1 }, true)
    else
      let red2 := if player.team = some Team.red then red1 + 1 else red1
      let blue2 := if player.team = some Team.blue then blue1 + 1 else blue1
      ({ r with redTeamCount := red2, blueTeamCount := blue2 }, false)

/-- `GameRoom.handleGoal(team)`: increment the scorer's tally, recenter the
ball, send every teamed player back to kickoff; spectators untouched. -/
def handleGoal (r : GameRoom) (team : Team) : GameRoom :=
  { r with
    scoreRed := if team = Team.red then r.scoreRed + 1 else r.scoreRed,
    scoreBlue := if team = Team.blue then r.scoreBlue + 1 else r.scoreBlue,
    ball := PhysicsEngine.resetBall r.ball,
    players := r.players.map (fun p => if p.team.isSome then p.resetPosition else p) }

/-- First phase of `GameRoom.checkCollisions()`: each teamed player, in map
order, is tested and resolved against the ball (the ball updates thread
through the traversal). -/
def ballPass : List Player → Obj → List Player × Obj
  | [], b => ([], b)
  | p :: ps, b =>
    let step :=
      if p.team.isSome ∧ PhysicsEngine.checkCollision p.kin b
          PhysicsEngine.playerRadius PhysicsEngine.ballRadius then
        let res := PhysicsEngine.resolveCollision p.kin b
          PhysicsEngine.playerRadius PhysicsEngine.ballRadius 1 0.5
        ({ p with kin := res.1 }, res.2)
      else (p, b)
    let rest := ballPass ps step.2
    (step.1 :: rest.1, rest.2)

/-- One player-player check-and-resolve (`checkCollision` then
`resolveCollision` with radii 15, masses 1). -/
def collidePair (p q : Player) : Player × Player :=
  if PhysicsEngine.checkCollision p.kin q.kin
      PhysicsEngine.playerRadius PhysicsEngine.playerRadius then
    let res := PhysicsEngine.resolveCollision p.kin q.kin
      PhysicsEngine.playerRadius PhysicsEngine.playerRadius 1 1
    ({ p with kin := res.1 }, { q with kin := res.2 })
  else (p, q)

/-- Inner loop of the pairwise pass: collide `p` (index `i`) against every
later player in order, threading the mutations. -/
def collideWithAll : Player → List Player → Player × List Player
  | p, [] => (p, [])
  | p, q :: qs =>
    let pq := collidePair p q
    let rest := collideWithAll pq.1 qs
    (rest.1, pq.2 :: rest.2)

theorem collideWithAll_snd_length (p : Player) (ps : List Player) :
    ((collideWithAll p ps).2).length = ps.length := by
  induction ps generalizing p with
  | nil => rfl
  | cons q qs ih => simp [collideWithAll, ih]

/-- Outer loop of the pairwise pass over the teamed-player array
(`for i ...: for j = i+1 ...`). -/
def pairPass : List Player → List Player
  | [] => []
  | p :: ps =>
    let res := collideWithAll p ps
    res.1 :: pairPass res.2
termination_by l => l.length
decreasing_by
  simp only [collideWithAll_snd_length]
  simp

/-- Write the mutated teamed players (in order) back over the teamed
positions of the room's player list: models the aliasing between the
filtered `playerArray` and the `Map`'s player objects. -/
def mergeTeamed : List Player → List Player → List Player
  | [], _ => []
  | p :: ps, us =>
    if p.team.isSome then
      match us with
      | [] => p :: mergeTeamed ps []
      | u :: us2 => u :: mergeTeamed ps us2
    else p :: mergeTeamed ps us

/-- `GameRoom.checkCollisions()`: ball pass over all players (teamed guard
inside), then the pairwise pass over the array filtered to teamed players;
the mutated teamed players are written back into the room's list
(in JS the array aliases the map's objects). -/
def checkCollisions (players : List Player) (ball : Obj) : List Player × Obj :=
  let bp := ballPass players ball
  let arr := bp.1.filter (fun p => p.team.isSome)
  let arr2 := pairPass arr
  (mergeTeamed bp.1 arr2, bp.2)

/-- The per-player motion step of `updateGame`: only teamed players whose
last input is within the 5 s activity window get `updatePlayer`. -/
def motionPhase (players : List Player) (now dt : ℝ) : List Player :=
  players.map (fun p =>
    if p.team.isSome ∧ p.isActive now then
      { p with kin := PhysicsEngine.updatePlayer p.kin p.input dt }
    else p)

/-- The goal step of `updateGame`: `checkGoal` on the (post-collision) ball,
`handleGoal` on detection. -/
def goalPhase (r : GameRoom) : GameRoom :=
  match PhysicsEngine.checkGoal r.ball with
  | some t => handleGoal r t
  | none => r

/-- `GameRoom.updateGame()`: normalize the elapsed wall time, move active
teamed players, move the ball, run the collision pass, handle a goal if one
is detected, and accumulate game time.  `now` is the tick's `Date.now()`. -/
def updateGame (r : GameRoom) (now : ℝ) : GameRoom :=
  let deltaTime := now - r.lastUpdate
  let dt := deltaTime / 16.67
  let players1 := motionPhase r.players now dt
  let ball1 := PhysicsEngine.updateBall r.ball dt
  let cc := checkCollisions players1 ball1
  let r1 := { r with lastUpdate := now, players := cc.1, ball := cc.2 }
  let r2 := goalPhase r1
  { r2 with gameTime := r2.gameTime + deltaTime }

/-- `GameRoom.getGameState()`: the emitted snapshot's ball record, rounded
to 2 decimals (the player records are `Player.getGameData`). -/
def getGameStateBall (r : GameRoom) : Obj :=
  { x := round2 r.ball.x, y := round2 r.ball.y,
    vx := round2 r.ball.vx, vy := round2 r.ball.vy }

/-- `GameRoom.getGameState().players`: one `getGameData` record per player. -/
def getGameStatePlayers (r : GameRoom) : List GameData :=
  r.players.map Player.getGameData

/-- Modelled from the spec for claim C2 ("all of them still participate in
the collision pass exactly like active teamed players"): the ball pass with
no team guard. -/
def ballPassAll : List Player → Obj → List Player × Obj
  | [], b => ([], b)
  | p :: ps, b =>
    let step :=
      if PhysicsEngine.checkCollision p.kin b
          PhysicsEngine.playerRadius PhysicsEngine.ballRadius then
        let res := PhysicsEngine.resolveCollision p.kin b
          PhysicsEngine.playerRadius PhysicsEngine.ballRadius 1 0.5
        ({ p with kin := res.1 }, res.2)
      else (p, b)
    let rest := ballPassAll ps step.2
    (step.1 :: rest.1, rest.2)

/-- Modelled from the spec for claim C2: collision pass in which every
player, teamed or not, is collidable. -/
def checkCollisionsClaim (players : List Player) (ball : Obj) : List Player × Obj :=
  let bp := ballPassAll players ball
  (pairPass bp.1, bp.2)

/-- Modelled from the spec for claim C2: the tick as the claim describes it —
identical to `updateGame` except that the collision pass includes every
player. -/
def updateGameClaim (r : GameRoom) (now : ℝ) : GameRoom :=
  let deltaTime := now - r.lastUpdate
  let dt := deltaTime / 16.67
  let players1 := motionPhase r.players now dt
  let ball1 := PhysicsEngine.updateBall r.ball dt
  let cc := checkCollisionsClaim players1 ball1
  let r1 := { r with lastUpdate := now, players := cc.1, ball := cc.2 }
  let r2 := goalPhase r1
  { r2 with gameTime := r2.gameTime + deltaTime }

end GameRoom

/-- Modelled from the spec for claim C7 ("assign to whichever team has fewer
current members (Red wins ties) if under cap, else the other team if under
cap, else Spectator"). -/
def autoAssignSpecChoice (red blue : ℤ) : Option Team :=
  if red ≤ blue then
    if red < maxTeamSize then some Team.red
    else if blue < maxTeamSize then some Team.blue
    else none
  else
    if blue < maxTeamSize then some Team.blue
    else if red < maxTeamSize then some Team.red
    else none

/-- Velocity magnitude of an entity (`Math.sqrt(vx*vx + vy*vy)`). -/
def speed (o : Obj) : ℝ := Real.sqrt (o.vx * o.vx + o.vy * o.vy)

/-- Kinetic energy `m/2 · |v|²` of an entity with mass `m`. -/
def kineticEnergy (m : ℝ) (o : Obj) : ℝ := 1 / 2 * m * (o.vx * o.vx + o.vy * o.vy)

/-- Claim C3's permitted region for an entity center: the field rectangle
`[0,800] × [0,400]`, extended horizontally by `goalDepth = 20` only where the
vertical coordinate lies inside the goal span `[160,240]`. -/
def inAllowedRegion (x y : ℝ) : Prop :=
  (0 ≤ x ∧ x ≤ 800 ∧ 0 ≤ y ∧ y ≤ 400) ∨
  (-20 ≤ x ∧ x ≤ 820 ∧ 160 ≤ y ∧ y ≤ 240)

/-- The fixed spot a team assignment teleports a player to (claim C10's
table): Red (100,200), Blue (700,200), Spectator (400,50), velocity zeroed. -/
def spotFor : Option Team → Obj
  | some Team.red => { x := 100, y := 200, vx := 0, vy := 0 }
  | some Team.blue => { x := 700, y := 200, vx := 0, vy := 0 }
  | none => { x := 400, y := 50, vx := 0, vy := 0 }

/-- A player literal with the given id, team, kinematics and last-input
timestamp (empty nickname, no directional input held). -/
def mkPlayer (id : ℕ) (team : Option Team) (x y vx vy lastSeen : ℝ) : Player :=
  { id := id, nickname := "", kin := { x := x, y := y, vx := vx, vy := vy },
    team := team, input := { up := false, down := false, left := false, right := false },
    lastSeen := lastSeen }

/-- Default player used with `List.getD` when indexing player lists. -/
def pDefault : Player := mkPlayer 0 none 0 0 0 0 0

/-- Concrete entity for the C6 witness: a player body moving right. -/
def objA : Obj := { x := 0, y := 0, vx := 3, vy := 0 }

/-- Concrete entity for the C6 witness: an overlapping ball moving left. -/
def objB : Obj := { x := 12, y := 0, vx := -2, vy := 1 }

/-- The collision normal `normalize(obj2 - obj1)` of `resolveCollision`. -/
def cNormal (o1 o2 : Obj) : ℝ × ℝ :=
  PhysicsEngine.normalize (o2.x - o1.x, o2.y - o1.y)

/-- The relative velocity along the collision normal in `resolveCollision`. -/
def cVn (o1 o2 : Obj) : ℝ :=
  PhysicsEngine.dotProduct (o2.vx - o1.vx, o2.vy - o1.vy) (cNormal o1 o2)

/-- The positional separation distance (half the overlap) in
`resolveCollision`. -/
def cSep (o1 o2 : Obj) (r1 r2 : ℝ) : ℝ :=
  (r1 + r2 - PhysicsEngine.distance o1 o2) / 2

/-- The impulse scalar of `resolveCollision`. -/
def cJ (o1 o2 : Obj) (m1 m2 : ℝ) : ℝ :=
  -(1 + PhysicsEngine.bounceRestitution) * cVn o1 o2 / (1 / m1 + 1 / m2)

/-- Concrete pre-tick room for claim C1: two teamed, input-inactive red
players overlapping near the left side, both with speed 4.9 (= the
post-friction cap), one moving tangentially and one along the collision
normal; ball at rest far away.  The previous tick ended exactly one nominal
period (16.67 ms) before `now = 1000000`. -/
def roomC1 : GameRoom :=
  { players := [mkPlayer 1 (some Team.red) 100 100 4.9 0 0,
                mkPlayer 2 (some Team.red) 100 101 0 (-4.9) 0],
    ball := { x := 400, y := 100, vx := 0, vy := 0 },
    scoreRed := 0, scoreBlue := 0, redTeamCount := 2, blueTeamCount := 0,
    lastUpdate := 1000000 - 16.67, gameTime := 0 }

/-- Concrete pre-tick room for claim C2: a single teamless (spectator)
player at field center with the moving ball overlapping it. -/
def roomC2 : GameRoom :=
  { players := [mkPlayer 1 none 400 200 0 0 0],
    ball := { x := 405, y := 200, vx := -1, vy := 0 },
    scoreRed := 0, scoreBlue := 0, redTeamCount := 0, blueTeamCount := 0,
    lastUpdate := 1000000 - 16.67, gameTime := 0 }

/-- Concrete pre-tick room for claim C3: two teamed, input-inactive red
players inside the left goal mouth (both centers at x = -5, inside the
allowed region), vertically 1 apart at the bottom edge of the goal span;
ball at rest far away. -/
def roomC3 : GameRoom :=
  { players := [mkPlayer 1 (some Team.red) (-5) 160 0 0 0,
                mkPlayer 2 (some Team.red) (-5) 161 0 0 0],
    ball := { x := 400, y := 100, vx := 0, vy := 0 },
    scoreRed := 0, scoreBlue := 0, redTeamCount := 2, blueTeamCount := 0,
    lastUpdate := 1000000 - 16.67, gameTime := 0 }

/-- Concrete room for claim C5: the red team is full (4 members) and player
1 is one of them. -/
def roomC5 : GameRoom :=
  { players := [mkPlayer 1 (some Team.red) 100 200 0 0 0,
                mkPlayer 2 (some Team.red) 100 200 0 0 0,
                mkPlayer 3 (some Team.red) 100 200 0 0 0,
                mkPlayer 4 (some Team.red) 100 200 0 0 0],
    ball := { x := 400, y := 200, vx := 0, vy := 0 },
    scoreRed := 0, scoreBlue := 0, redTeamCount := 4, blueTeamCount := 0,
    lastUpdate := 0, gameTime := 0 }

/-- Concrete room shared by the C5-amended and C10 witnesses: red full with
four members, one blue player (id 9). -/
def roomW : GameRoom :=
  { players := [mkPlayer 1 (some Team.red) 100 200 0 0 0,
                mkPlayer 2 (some Team.red) 100 200 0 0 0,
                mkPlayer 3 (some Team.red) 100 200 0 0 0,
                mkPlayer 4 (some Team.red) 100 200 0 0 0,
                mkPlayer 9 (some Team.blue) 700 200 3 4 0],
    ball := { x := 400, y := 200, vx := 0, vy := 0 },
    scoreRed := 0, scoreBlue := 0, redTeamCount := 4, blueTeamCount := 1,
    lastUpdate := 0, gameTime := 0 }

/-- Concrete room for the C8 witness: one red player, one blue player, one
spectator, all away from their kickoff spots with nonzero velocity. -/
def roomW8 : GameRoom :=
  { players := [mkPlayer 1 (some Team.red) 321 57 2 (-3) 11,
                mkPlayer 2 (some Team.blue) 500 300 (-1) 1 22,
                mkPlayer 3 none 400 50 5 6 33],
    ball := { x := 12, y := 200, vx := -7, vy := 0 },
    scoreRed := 2, scoreBlue := 5, redTeamCount := 1, blueTeamCount := 1,
    lastUpdate := 0, gameTime := 0 }

/-! ## Helper lemmas -/

theorem Player.setTeam_team (p : Player) (t : Option Team) : (p.setTeam t).team = t := by
  unfold Player.setTeam
  split_ifs <;> rfl

theorem goalTop_eq : PhysicsEngine.goalTop = 160 := by
  norm_num [PhysicsEngine.goalTop, PhysicsEngine.fieldHeight, PhysicsEngine.goalHeight]

theorem goalBottom_eq : PhysicsEngine.goalBottom = 240 := by
  norm_num [PhysicsEngine.goalBottom, goalTop_eq.symm, PhysicsEngine.goalTop,
    PhysicsEngine.fieldHeight, PhysicsEngine.goalHeight]

theorem Player.setTeam_kin (p : Player) (t : Option Team) :
    (p.setTeam t).kin = spotFor t := by
  unfold Player.setTeam spotFor
  rcases t with _ | t
  · simp
  · cases t <;> simp

theorem Player.setTeam_id (p : Player) (t : Option Team) : (p.setTeam t).id = p.id := by
  unfold Player.setTeam
  split_ifs <;> rfl

theorem jsRound_eq_round (x : ℝ) : jsRound x = (round x : ℤ) := by
  unfold jsRound
  rw [round_eq]

theorem round2_close (x : ℝ) : |round2 x - x| ≤ 1 / 200 := by
  have h := abs_sub_round (x * 100)
  have e : round2 x - x = -(x * 100 - (round (x * 100) : ℤ)) / 100 := by
    rw [round2, jsRound_eq_round]
    ring
  rw [e, abs_div, abs_neg]
  rw [show |(100 : ℝ)| = 100 by norm_num]
  linarith

theorem distance_comm (o1 o2 : Obj) :
    PhysicsEngine.distance o1 o2 = PhysicsEngine.distance o2 o1 := by
  unfold PhysicsEngine.distance
  congr 1
  ring

theorem normalize_neg (a b : ℝ) :
    PhysicsEngine.normalize (-a, -b)
      = (-(PhysicsEngine.normalize (a, b)).1, -(PhysicsEngine.normalize (a, b)).2) := by
  unfold PhysicsEngine.normalize
  simp only
  rw [show -a * -a + -b * -b = a * a + b * b from by ring]
  split_ifs with h
  · simp
  · simp [neg_div]

theorem normalize_sq_or_zero (a b : ℝ) :
    ((PhysicsEngine.normalize (a, b)).1 * (PhysicsEngine.normalize (a, b)).1
        + (PhysicsEngine.normalize (a, b)).2 * (PhysicsEngine.normalize (a, b)).2 = 1)
      ∨ ((PhysicsEngine.normalize (a, b)).1 = 0
          ∧ (PhysicsEngine.normalize (a, b)).2 = 0) := by
  unfold PhysicsEngine.normalize
  simp only
  split_ifs with h
  · right
    simp
  · left
    have hnn : 0 ≤ a * a + b * b :=
      add_nonneg (mul_self_nonneg a) (mul_self_nonneg b)
    have hms := Real.mul_self_sqrt hnn
    have hSne : a * a + b * b ≠ 0 := by
      intro h0
      exact h (by rw [h0, Real.sqrt_zero])
    rw [div_mul_div_comm, div_mul_div_comm, div_add_div_same, hms]
    exact div_self hSne

theorem resolveCollision_far (o1 o2 : Obj) (r1 r2 m1 m2 : ℝ)
    (hd : PhysicsEngine.distance o1 o2 ≥ r1 + r2) :
    PhysicsEngine.resolveCollision o1 o2 r1 r2 m1 m2 = (o1, o2) := by
  unfold PhysicsEngine.resolveCollision
  simp only [if_pos hd]

theorem resolveCollision_sep (o1 o2 : Obj) (r1 r2 m1 m2 : ℝ)
    (hd : ¬ PhysicsEngine.distance o1 o2 ≥ r1 + r2) (hv : cVn o1 o2 > 0) :
    PhysicsEngine.resolveCollision o1 o2 r1 r2 m1 m2 =
      ({ o1 with x := o1.x - (cNormal o1 o2).1 * cSep o1 o2 r1 r2,
                 y := o1.y - (cNormal o1 o2).2 * cSep o1 o2 r1 r2 },
       { o2 with x := o2.x + (cNormal o1 o2).1 * cSep o1 o2 r1 r2,
                 y := o2.y + (cNormal o1 o2).2 * cSep o1 o2 r1 r2 }) := by
  unfold cVn cNormal at hv
  unfold PhysicsEngine.resolveCollision
  simp only [if_neg hd, if_pos hv]
  unfold cNormal cSep
  rfl

theorem resolveCollision_imp (o1 o2 : Obj) (r1 r2 m1 m2 : ℝ)
    (hd : ¬ PhysicsEngine.distance o1 o2 ≥ r1 + r2) (hv : ¬ cVn o1 o2 > 0) :
    PhysicsEngine.resolveCollision o1 o2 r1 r2 m1 m2 =
      ({ x := o1.x - (cNormal o1 o2).1 * cSep o1 o2 r1 r2,
         y := o1.y - (cNormal o1 o2).2 * cSep o1 o2 r1 r2,
         vx := o1.vx - cJ o1 o2 m1 m2 * (cNormal o1 o2).1 / m1,
         vy := o1.vy - cJ o1 o2 m1 m2 * (cNormal o1 o2).2 / m1 },
       { x := o2.x + (cNormal o1 o2).1 * cSep o1 o2 r1 r2,
         y := o2.y + (cNormal o1 o2).2 * cSep o1 o2 r1 r2,
         vx := o2.vx + cJ o1 o2 m1 m2 * (cNormal o1 o2).1 / m2,
         vy := o2.vy + cJ o1 o2 m1 m2 * (cNormal o1 o2).2 / m2 }) := by
  unfold cVn cNormal at hv
  unfold PhysicsEngine.resolveCollision
  simp only [if_neg hd, if_neg hv]
  unfold cJ cVn cNormal cSep
  rfl

theorem normSwap (o1 o2 : Obj) :
    cNormal o2 o1 = (-(cNormal o1 o2).1, -(cNormal o1 o2).2) := by
  unfold cNormal
  rw [show o1.x - o2.x = -(o2.x - o1.x) from by ring,
    show o1.y - o2.y = -(o2.y - o1.y) from by ring]
  exact normalize_neg _ _

theorem vnSwap (o1 o2 : Obj) : cVn o2 o1 = cVn o1 o2 := by
  unfold cVn PhysicsEngine.dotProduct
  rw [normSwap]
  simp only
  ring

theorem resolveCollision_swap (o1 o2 : Obj) (r1 r2 m1 m2 : ℝ) :
    PhysicsEngine.resolveCollision o2 o1 r2 r1 m2 m1
      = ((PhysicsEngine.resolveCollision o1 o2 r1 r2 m1 m2).2,
         (PhysicsEngine.resolveCollision o1 o2 r1 r2 m1 m2).1) := by
  by_cases hd : PhysicsEngine.distance o1 o2 ≥ r1 + r2
  · rw [resolveCollision_far o1 o2 r1 r2 m1 m2 hd,
      resolveCollision_far o2 o1 r2 r1 m2 m1 (by rwa [distance_comm, add_comm])]
  · have hd2 : ¬ PhysicsEngine.distance o2 o1 ≥ r2 + r1 := by
      rwa [distance_comm, add_comm]
    have hsep2 : cSep o2 o1 r2 r1 = cSep o1 o2 r1 r2 := by
      unfold cSep
      rw [distance_comm, add_comm r1 r2]
    by_cases hv : cVn o1 o2 > 0
    · rw [resolveCollision_sep o1 o2 r1 r2 m1 m2 hd hv,
        resolveCollision_sep o2 o1 r2 r1 m2 m1 hd2 (by rwa [vnSwap]),
        normSwap, hsep2]
      rw [Prod.mk.injEq]
      constructor <;> (ext <;> simp only <;> ring)
    · have hj2 : cJ o2 o1 m2 m1 = cJ o1 o2 m1 m2 := by
        unfold cJ
        rw [vnSwap, add_comm (1 / m2) (1 / m1)]
      rw [resolveCollision_imp o1 o2 r1 r2 m1 m2 hd hv,
        resolveCollision_imp o2 o1 r2 r1 m2 m1 hd2 (by rwa [vnSwap]),
        normSwap, hsep2, hj2]
      rw [Prod.mk.injEq]
      constructor <;> (ext <;> simp only <;> ring)

theorem impulse_conservation (v1x v1y v2x v2y n1 n2 m1 m2 vn j : ℝ)
    (hm1 : 0 < m1) (hm2 : 0 < m2)
    (hvn : vn = (v2x - v1x) * n1 + (v2y - v1y) * n2)
    (hj : j = -(1 + PhysicsEngine.bounceRestitution) * vn / (1 / m1 + 1 / m2))
    (hn : n1 * n1 + n2 * n2 = 1 ∨ (n1 = 0 ∧ n2 = 0)) :
    (m1 * (v1x - j * n1 / m1) + m2 * (v2x + j * n1 / m2) = m1 * v1x + m2 * v2x) ∧
    (m1 * (v1y - j * n2 / m1) + m2 * (v2y + j * n2 / m2) = m1 * v1y + m2 * v2y) ∧
    (1 / 2 * m1 * ((v1x - j * n1 / m1) * (v1x - j * n1 / m1)
          + (v1y - j * n2 / m1) * (v1y - j * n2 / m1))
        + 1 / 2 * m2 * ((v2x + j * n1 / m2) * (v2x + j * n1 / m2)
          + (v2y + j * n2 / m2) * (v2y + j * n2 / m2))
      ≤ 1 / 2 * m1 * (v1x * v1x + v1y * v1y)
        + 1 / 2 * m2 * (v2x * v2x + v2y * v2y)) := by
  have hm1n : m1 ≠ 0 := ne_of_gt hm1
  have hm2n : m2 ≠ 0 := ne_of_gt hm2
  have hD : (0 : ℝ) < 1 / m1 + 1 / m2 := by positivity
  have hDn : (1 : ℝ) / m1 + 1 / m2 ≠ 0 := ne_of_gt hD
  have he : PhysicsEngine.bounceRestitution = 0.8 := rfl
  refine ⟨by field_simp; ring, by field_simp; ring, ?_⟩
  rcases hn with hn | ⟨hn1, hn2⟩
  · have hjD : j * (1 / m1 + 1 / m2) = -(1 + PhysicsEngine.bounceRestitution) * vn := by
      rw [hj, div_mul_cancel₀ _ hDn]
    have expand :
        1 / 2 * m1 * ((v1x - j * n1 / m1) * (v1x - j * n1 / m1)
            + (v1y - j * n2 / m1) * (v1y - j * n2 / m1))
          + 1 / 2 * m2 * ((v2x + j * n1 / m2) * (v2x + j * n1 / m2)
            + (v2y + j * n2 / m2) * (v2y + j * n2 / m2))
          - (1 / 2 * m1 * (v1x * v1x + v1y * v1y)
            + 1 / 2 * m2 * (v2x * v2x + v2y * v2y))
          = j * ((v2x - v1x) * n1 + (v2y - v1y) * n2)
            + j * j * (n1 * n1 + n2 * n2) * (1 / m1 + 1 / m2) / 2 := by
      field_simp
      ring
    rw [hn, ← hvn] at expand
    have hjvn : j * vn ≤ 0 := by
      rw [hj, he]
      rw [div_mul_eq_mul_div]
      apply div_nonpos_of_nonpos_of_nonneg
      · nlinarith [sq_nonneg vn]
      · linarith
    have hsq : j * j * 1 * (1 / m1 + 1 / m2) / 2 = -(1 + 0.8) * vn * j / 2 := by
      rw [mul_one, mul_assoc, hjD, he]
      ring
    rw [hsq] at expand
    rw [show j * vn + -(1 + 0.8) * vn * j / 2 = 1 / 10 * (j * vn) from by ring] at expand
    linarith [expand, hjvn]
  · have hvz : vn = 0 := by rw [hvn, hn1, hn2]; ring
    have hjz : j = 0 := by rw [hj, hvz]; simp
    rw [hjz, hn1, hn2]
    simp

/-! ## Concrete-evaluation helpers -/

theorem constrain_id (o : Obj) (radius : ℝ)
    (h1 : ¬ o.x - radius < 0) (h2 : ¬ o.x + radius > PhysicsEngine.fieldWidth)
    (h3 : ¬ o.y - radius < 0) (h4 : ¬ o.y + radius > PhysicsEngine.fieldHeight) :
    PhysicsEngine.constrainToBounds o radius = o := by
  unfold PhysicsEngine.constrainToBounds PhysicsEngine.constrainLeft
    PhysicsEngine.constrainRight PhysicsEngine.constrainTop
    PhysicsEngine.constrainBottom
  simp only [if_neg h1, if_neg h2, if_neg h3, if_neg h4]

theorem distance_eval (o1 o2 : Obj) (d : ℝ) (hd : 0 ≤ d)
    (h : (o1.x - o2.x) * (o1.x - o2.x) + (o1.y - o2.y) * (o1.y - o2.y) = d * d) :
    PhysicsEngine.distance o1 o2 = d := by
  unfold PhysicsEngine.distance
  rw [h]
  exact Real.sqrt_mul_self hd

theorem not_collide (o1 o2 : Obj) (r1 r2 : ℝ) (hr : 0 ≤ r1 + r2)
    (h : (r1 + r2) * (r1 + r2)
        ≤ (o1.x - o2.x) * (o1.x - o2.x) + (o1.y - o2.y) * (o1.y - o2.y)) :
    ¬ PhysicsEngine.checkCollision o1 o2 r1 r2 := by
  unfold PhysicsEngine.checkCollision PhysicsEngine.distance
  push_neg
  rw [show r1 + r2 = Real.sqrt ((r1 + r2) * (r1 + r2)) from
    (Real.sqrt_mul_self hr).symm]
  exact Real.sqrt_le_sqrt h

theorem normalize_eval (a b m : ℝ) (hm : 0 < m) (h : a * a + b * b = m * m) :
    PhysicsEngine.normalize (a, b) = (a / m, b / m) := by
  unfold PhysicsEngine.normalize
  simp only
  rw [h, Real.sqrt_mul_self hm.le, if_neg (ne_of_gt hm)]

theorem motion_skip (p : Player) (now dt : ℝ)
    (h : ¬ (p.team.isSome = true ∧ p.isActive now)) :
    (if p.team.isSome = true ∧ p.isActive now
      then { p with kin := PhysicsEngine.updatePlayer p.kin p.input dt }
      else p) = p :=
  if_neg h

theorem pairPass_nil : GameRoom.pairPass [] = [] := by
  rw [GameRoom.pairPass]

theorem pairPass_cons (p : Player) (ps : List Player) :
    GameRoom.pairPass (p :: ps)
      = (GameRoom.collideWithAll p ps).1
          :: GameRoom.pairPass (GameRoom.collideWithAll p ps).2 := by
  rw [GameRoom.pairPass]

theorem updateBall_C1 (dt : ℝ) :
    PhysicsEngine.updateBall { x := 400, y := 100, vx := 0, vy := 0 } dt
      = { x := 400, y := 100, vx := 0, vy := 0 } := by
  unfold PhysicsEngine.updateBall
  simp only [PhysicsEngine.friction]
  norm_num
  exact constrain_id _ _
    (by norm_num [PhysicsEngine.ballRadius])
    (by norm_num [PhysicsEngine.ballRadius, PhysicsEngine.fieldWidth])
    (by norm_num [PhysicsEngine.ballRadius])
    (by norm_num [PhysicsEngine.ballRadius, PhysicsEngine.fieldHeight])

theorem collidePair_C1 :
    GameRoom.collidePair (mkPlayer 1 (some Team.red) 100 100 4.9 0 0)
        (mkPlayer 2 (some Team.red) 100 101 0 (-4.9) 0)
      = (mkPlayer 1 (some Team.red) 100 85.5 4.9 (-4.41) 0,
         mkPlayer 2 (some Team.red) 100 115.5 0 (-0.49) 0) := by
  have hdist : PhysicsEngine.distance { x := 100, y := 100, vx := 4.9, vy := 0 }
      { x := 100, y := 101, vx := 0, vy := -4.9 } = 1 :=
    distance_eval _ _ 1 (by norm_num) (by norm_num)
  have hcol : PhysicsEngine.checkCollision { x := 100, y := 100, vx := 4.9, vy := 0 }
      { x := 100, y := 101, vx := 0, vy := -4.9 }
      PhysicsEngine.playerRadius PhysicsEngine.playerRadius := by
    unfold PhysicsEngine.checkCollision
    rw [hdist]
    norm_num [PhysicsEngine.playerRadius]
  have hd : ¬ PhysicsEngine.distance { x := 100, y := 100, vx := 4.9, vy := 0 }
      { x := 100, y := 101, vx := 0, vy := -4.9 }
      ≥ PhysicsEngine.playerRadius + PhysicsEngine.playerRadius := by
    rw [hdist]
    norm_num [PhysicsEngine.playerRadius]
  have hnorm : cNormal { x := 100, y := 100, vx := 4.9, vy := 0 }
      { x := 100, y := 101, vx := 0, vy := -4.9 } = (0, 1) := by
    unfold cNormal
    norm_num
    rw [normalize_eval 0 1 1 (by norm_num) (by norm_num)]
    norm_num
  have hvn : cVn { x := 100, y := 100, vx := 4.9, vy := 0 }
      { x := 100, y := 101, vx := 0, vy := -4.9 } = -4.9 := by
    unfold cVn
    rw [hnorm]
    unfold PhysicsEngine.dotProduct
    norm_num
  have hv : ¬ cVn { x := 100, y := 100, vx := 4.9, vy := 0 }
      { x := 100, y := 101, vx := 0, vy := -4.9 } > 0 := by
    rw [hvn]
    norm_num
  have hsep : cSep { x := 100, y := 100, vx := 4.9, vy := 0 }
      { x := 100, y := 101, vx := 0, vy := -4.9 }
      PhysicsEngine.playerRadius PhysicsEngine.playerRadius = 14.5 := by
    unfold cSep
    rw [hdist]
    norm_num [PhysicsEngine.playerRadius]
  have hj : cJ { x := 100, y := 100, vx := 4.9, vy := 0 }
      { x := 100, y := 101, vx := 0, vy := -4.9 } 1 1 = 4.41 := by
    unfold cJ
    rw [hvn]
    norm_num [PhysicsEngine.bounceRestitution]
  unfold GameRoom.collidePair
  simp only [mkPlayer, eq_true hcol, if_true]
  rw [resolveCollision_imp _ _ _ _ _ _ hd hv, hnorm, hsep, hj]
  norm_num

theorem ballPass_C1 :
    GameRoom.ballPass
      [mkPlayer 1 (some Team.red) 100 100 4.9 0 0,
       mkPlayer 2 (some Team.red) 100 101 0 (-4.9) 0]
      { x := 400, y := 100, vx := 0, vy := 0 }
      = ([mkPlayer 1 (some Team.red) 100 100 4.9 0 0,
          mkPlayer 2 (some Team.red) 100 101 0 (-4.9) 0],
         { x := 400, y := 100, vx := 0, vy := 0 }) := by
  have hnc1 : ¬ PhysicsEngine.checkCollision { x := 100, y := 100, vx := 4.9, vy := 0 }
      { x := 400, y := 100, vx := 0, vy := 0 }
      PhysicsEngine.playerRadius PhysicsEngine.ballRadius :=
    not_collide _ _ _ _
      (by norm_num [PhysicsEngine.playerRadius, PhysicsEngine.ballRadius])
      (by norm_num [PhysicsEngine.playerRadius, PhysicsEngine.ballRadius])
  have hnc2 : ¬ PhysicsEngine.checkCollision { x := 100, y := 101, vx := 0, vy := -4.9 }
      { x := 400, y := 100, vx := 0, vy := 0 }
      PhysicsEngine.playerRadius PhysicsEngine.ballRadius :=
    not_collide _ _ _ _
      (by norm_num [PhysicsEngine.playerRadius, PhysicsEngine.ballRadius])
      (by norm_num [PhysicsEngine.playerRadius, PhysicsEngine.ballRadius])
  simp [GameRoom.ballPass, mkPlayer, eq_false hnc1, eq_false hnc2]

theorem checkCollisions_C1 :
    GameRoom.checkCollisions
      [mkPlayer 1 (some Team.red) 100 100 4.9 0 0,
       mkPlayer 2 (some Team.red) 100 101 0 (-4.9) 0]
      { x := 400, y := 100, vx := 0, vy := 0 }
      = ([mkPlayer 1 (some Team.red) 100 85.5 4.9 (-4.41) 0,
          mkPlayer 2 (some Team.red) 100 115.5 0 (-0.49) 0],
         { x := 400, y := 100, vx := 0, vy := 0 }) := by
  unfold GameRoom.checkCollisions
  rw [ballPass_C1]
  have hfil : List.filter (fun p => p.team.isSome)
      [mkPlayer 1 (some Team.red) 100 100 4.9 0 0,
       mkPlayer 2 (some Team.red) 100 101 0 (-4.9) 0]
      = [mkPlayer 1 (some Team.red) 100 100 4.9 0 0,
         mkPlayer 2 (some Team.red) 100 101 0 (-4.9) 0] := rfl
  simp only [hfil]
  rw [pairPass_cons]
  simp only [GameRoom.collideWithAll, collidePair_C1]
  rw [pairPass_cons]
  simp only [GameRoom.collideWithAll]
  rw [pairPass_nil]
  rfl

theorem roomC1_eval :
    GameRoom.updateGame roomC1 1000000
      = { players := [mkPlayer 1 (some Team.red) 100 85.5 4.9 (-4.41) 0,
                      mkPlayer 2 (some Team.red) 100 115.5 0 (-0.49) 0],
          ball := { x := 400, y := 100, vx := 0, vy := 0 },
          scoreRed := 0, scoreBlue := 0, redTeamCount := 2, blueTeamCount := 0,
          lastUpdate := 1000000, gameTime := 16.67 } := by
  have hskip1 : ¬ ((mkPlayer 1 (some Team.red) 100 100 4.9 0 0).team.isSome = true
      ∧ (mkPlayer 1 (some Team.red) 100 100 4.9 0 0).isActive 1000000) := by
    simp [mkPlayer, Player.isActive]
    norm_num
  have hskip2 : ¬ ((mkPlayer 2 (some Team.red) 100 101 0 (-4.9) 0).team.isSome = true
      ∧ (mkPlayer 2 (some Team.red) 100 101 0 (-4.9) 0).isActive 1000000) := by
    simp [mkPlayer, Player.isActive]
    norm_num
  have hgoal : PhysicsEngine.checkGoal { x := 400, y := 100, vx := 0, vy := 0 }
      = none := by
    unfold PhysicsEngine.checkGoal
    rw [if_neg (by norm_num), if_neg (by norm_num [PhysicsEngine.fieldWidth])]
  unfold GameRoom.updateGame
  simp only [roomC1, GameRoom.motionPhase, GameRoom.goalPhase, List.map_cons,
    List.map_nil, if_neg hskip1, if_neg hskip2, updateBall_C1,
    checkCollisions_C1, hgoal]
  norm_num

theorem speed_constrainLeft_le (o : Obj) (r : ℝ) :
    speed (PhysicsEngine.constrainLeft o r) ≤ speed o := by
  simp only [speed, PhysicsEngine.constrainLeft, PhysicsEngine.bounceRestitution]
  split_ifs <;>
    (apply Real.sqrt_le_sqrt
     nlinarith [abs_mul_abs_self o.vx, abs_mul_abs_self o.vy,
       mul_self_nonneg o.vx, mul_self_nonneg o.vy])

theorem speed_constrainRight_le (o : Obj) (r : ℝ) :
    speed (PhysicsEngine.constrainRight o r) ≤ speed o := by
  simp only [speed, PhysicsEngine.constrainRight, PhysicsEngine.bounceRestitution]
  split_ifs <;>
    (apply Real.sqrt_le_sqrt
     nlinarith [abs_mul_abs_self o.vx, abs_mul_abs_self o.vy,
       mul_self_nonneg o.vx, mul_self_nonneg o.vy])

theorem speed_constrainTop_le (o : Obj) (r : ℝ) :
    speed (PhysicsEngine.constrainTop o r) ≤ speed o := by
  simp only [speed, PhysicsEngine.constrainTop, PhysicsEngine.bounceRestitution]
  split_ifs <;>
    (apply Real.sqrt_le_sqrt
     nlinarith [abs_mul_abs_self o.vx, abs_mul_abs_self o.vy,
       mul_self_nonneg o.vx, mul_self_nonneg o.vy])

theorem speed_constrainBottom_le (o : Obj) (r : ℝ) :
    speed (PhysicsEngine.constrainBottom o r) ≤ speed o := by
  simp only [speed, PhysicsEngine.constrainBottom, PhysicsEngine.bounceRestitution]
  split_ifs <;>
    (apply Real.sqrt_le_sqrt
     nlinarith [abs_mul_abs_self o.vx, abs_mul_abs_self o.vy,
       mul_self_nonneg o.vx, mul_self_nonneg o.vy])

theorem speed_constrain_le (o : Obj) (r : ℝ) :
    speed (PhysicsEngine.constrainToBounds o r) ≤ speed o := by
  unfold PhysicsEngine.constrainToBounds
  exact le_trans (speed_constrainBottom_le _ _)
    (le_trans (speed_constrainTop_le _ _)
      (le_trans (speed_constrainRight_le _ _) (speed_constrainLeft_le _ _)))

theorem clamp_le (a b : ℝ) :
    Real.sqrt
      ((if Real.sqrt (a * a + b * b) > 5 then a / Real.sqrt (a * a + b * b) * 5 else a)
        * (if Real.sqrt (a * a + b * b) > 5 then a / Real.sqrt (a * a + b * b) * 5 else a)
      + (if Real.sqrt (a * a + b * b) > 5 then b / Real.sqrt (a * a + b * b) * 5 else b)
        * (if Real.sqrt (a * a + b * b) > 5 then b / Real.sqrt (a * a + b * b) * 5 else b))
    ≤ 5 := by
  have hsnn : 0 ≤ a * a + b * b := add_nonneg (mul_self_nonneg a) (mul_self_nonneg b)
  have hss := Real.mul_self_sqrt hsnn
  by_cases h : Real.sqrt (a * a + b * b) > 5
  · simp only [if_pos h]
    have hspos : (0 : ℝ) < Real.sqrt (a * a + b * b) := lt_trans (by norm_num) h
    have hSpos : (0 : ℝ) < a * a + b * b := by nlinarith
    rw [show (a / Real.sqrt (a * a + b * b) * 5) * (a / Real.sqrt (a * a + b * b) * 5)
          + (b / Real.sqrt (a * a + b * b) * 5) * (b / Real.sqrt (a * a + b * b) * 5)
        = 25 * ((a * a + b * b)
            / (Real.sqrt (a * a + b * b) * Real.sqrt (a * a + b * b))) from by ring]
    rw [hss, div_self (ne_of_gt hSpos), mul_one]
    rw [show (25 : ℝ) = 5 * 5 from by norm_num,
      Real.sqrt_mul_self (by norm_num : (0 : ℝ) ≤ 5)]
  · simp only [if_neg h]
    push_neg at h
    exact h

theorem speed_friction (a b f : ℝ) (hf : 0 ≤ f) :
    Real.sqrt ((a * f) * (a * f) + (b * f) * (b * f))
      = f * Real.sqrt (a * a + b * b) := by
  rw [show (a * f) * (a * f) + (b * f) * (b * f) = (f * f) * (a * a + b * b) from by ring,
    Real.sqrt_mul (mul_self_nonneg f), Real.sqrt_mul_self hf]

theorem constrainLeft_spec (o : Obj) (r : ℝ) :
    r ≤ (PhysicsEngine.constrainLeft o r).x
    ∨ (r - 20 ≤ (PhysicsEngine.constrainLeft o r).x
        ∧ (PhysicsEngine.constrainLeft o r).x < r
        ∧ 160 ≤ (PhysicsEngine.constrainLeft o r).y
        ∧ (PhysicsEngine.constrainLeft o r).y ≤ 240) := by
  unfold PhysicsEngine.constrainLeft
  rw [goalTop_eq, goalBottom_eq]
  simp only [PhysicsEngine.goalDepth]
  split_ifs with h1 h2 h3
  · right
    show r - 20 ≤ -20 + r ∧ -20 + r < r ∧ 160 ≤ o.y ∧ o.y ≤ 240
    exact ⟨by linarith, by linarith, h2.1, h2.2⟩
  · right
    show r - 20 ≤ o.x ∧ o.x < r ∧ 160 ≤ o.y ∧ o.y ≤ 240
    exact ⟨by linarith, by linarith, h2.1, h2.2⟩
  · left
    show r ≤ r
    exact le_refl r
  · left
    show r ≤ o.x
    linarith

theorem constrainRight_spec (b : Obj) (r : ℝ) (h0 : 0 < r) (h160 : r ≤ 160)
    (hb : r ≤ b.x ∨ (r - 20 ≤ b.x ∧ b.x < r ∧ 160 ≤ b.y ∧ b.y ≤ 240)) :
    (r ≤ (PhysicsEngine.constrainRight b r).x
        ∧ (PhysicsEngine.constrainRight b r).x ≤ 800 - r)
    ∨ (r - 20 ≤ (PhysicsEngine.constrainRight b r).x
        ∧ (PhysicsEngine.constrainRight b r).x ≤ 820 - r
        ∧ 160 ≤ (PhysicsEngine.constrainRight b r).y
        ∧ (PhysicsEngine.constrainRight b r).y ≤ 240) := by
  unfold PhysicsEngine.constrainRight
  rw [goalTop_eq, goalBottom_eq]
  simp only [PhysicsEngine.fieldWidth, PhysicsEngine.goalDepth]
  split_ifs with h1 h2 h3
  · right
    show r - 20 ≤ 800 + 20 - r ∧ 800 + 20 - r ≤ 820 - r ∧ 160 ≤ b.y ∧ b.y ≤ 240
    exact ⟨by linarith, by linarith, h2.1, h2.2⟩
  · right
    show r - 20 ≤ b.x ∧ b.x ≤ 820 - r ∧ 160 ≤ b.y ∧ b.y ≤ 240
    exact ⟨by linarith, by linarith, h2.1, h2.2⟩
  · left
    show r ≤ 800 - r ∧ 800 - r ≤ 800 - r
    exact ⟨by linarith, le_refl _⟩
  · rcases hb with hx | hx
    · left
      show r ≤ b.x ∧ b.x ≤ 800 - r
      exact ⟨hx, by linarith⟩
    · right
      show r - 20 ≤ b.x ∧ b.x ≤ 820 - r ∧ 160 ≤ b.y ∧ b.y ≤ 240
      exact ⟨hx.1, by linarith [hx.2.1], hx.2.2.1, hx.2.2.2⟩

theorem constrainTop_spec (b : Obj) (r : ℝ) (h0 : 0 < r) (h160 : r ≤ 160)
    (hb : (r ≤ b.x ∧ b.x ≤ 800 - r)
        ∨ (r - 20 ≤ b.x ∧ b.x ≤ 820 - r ∧ 160 ≤ b.y ∧ b.y ≤ 240)) :
    ((r ≤ (PhysicsEngine.constrainTop b r).x
        ∧ (PhysicsEngine.constrainTop b r).x ≤ 800 - r)
      ∨ (r - 20 ≤ (PhysicsEngine.constrainTop b r).x
          ∧ (PhysicsEngine.constrainTop b r).x ≤ 820 - r
          ∧ 160 ≤ (PhysicsEngine.constrainTop b r).y
          ∧ (PhysicsEngine.constrainTop b r).y ≤ 240))
    ∧ r ≤ (PhysicsEngine.constrainTop b r).y := by
  unfold PhysicsEngine.constrainTop
  split_ifs with h1
  · constructor
    · show (r ≤ b.x ∧ b.x ≤ 800 - r)
          ∨ (r - 20 ≤ b.x ∧ b.x ≤ 820 - r ∧ 160 ≤ r ∧ r ≤ 240)
      rcases hb with hx | hx
      · exact Or.inl hx
      · exact absurd hx.2.2.1 (by linarith)
    · show r ≤ r
      exact le_refl r
  · constructor
    · show (r ≤ b.x ∧ b.x ≤ 800 - r)
          ∨ (r - 20 ≤ b.x ∧ b.x ≤ 820 - r ∧ 160 ≤ b.y ∧ b.y ≤ 240)
      exact hb
    · show r ≤ b.y
      linarith

theorem constrainBottom_spec (b : Obj) (r : ℝ) (h0 : 0 < r) (h160 : r ≤ 160)
    (hb : ((r ≤ b.x ∧ b.x ≤ 800 - r)
        ∨ (r - 20 ≤ b.x ∧ b.x ≤ 820 - r ∧ 160 ≤ b.y ∧ b.y ≤ 240))
      ∧ r ≤ b.y) :
    ((r ≤ (PhysicsEngine.constrainBottom b r).x
        ∧ (PhysicsEngine.constrainBottom b r).x ≤ 800 - r)
      ∨ (r - 20 ≤ (PhysicsEngine.constrainBottom b r).x
          ∧ (PhysicsEngine.constrainBottom b r).x ≤ 820 - r
          ∧ 160 ≤ (PhysicsEngine.constrainBottom b r).y
          ∧ (PhysicsEngine.constrainBottom b r).y ≤ 240))
    ∧ 0 ≤ (PhysicsEngine.constrainBottom b r).y
    ∧ (PhysicsEngine.constrainBottom b r).y ≤ 400 := by
  unfold PhysicsEngine.constrainBottom
  simp only [PhysicsEngine.fieldHeight]
  split_ifs with h1
  · refine ⟨?_, ?_, ?_⟩
    · show (r ≤ b.x ∧ b.x ≤ 800 - r)
          ∨ (r - 20 ≤ b.x ∧ b.x ≤ 820 - r ∧ 160 ≤ 400 - r ∧ 400 - r ≤ 240)
      rcases hb.1 with hx | hx
      · exact Or.inl hx
      · exact absurd hx.2.2.2 (by linarith)
    · show (0 : ℝ) ≤ 400 - r
      linarith
    · show (400 : ℝ) - r ≤ 400
      linarith
  · refine ⟨?_, ?_, ?_⟩
    · show (r ≤ b.x ∧ b.x ≤ 800 - r)
          ∨ (r - 20 ≤ b.x ∧ b.x ≤ 820 - r ∧ 160 ≤ b.y ∧ b.y ≤ 240)
      exact hb.1
    · show (0 : ℝ) ≤ b.y
      linarith [hb.2]
    · show b.y ≤ 400
      linarith

theorem collidePair_C3 :
    GameRoom.collidePair (mkPlayer 1 (some Team.red) (-5) 160 0 0 0)
        (mkPlayer 2 (some Team.red) (-5) 161 0 0 0)
      = (mkPlayer 1 (some Team.red) (-5) 145.5 0 0 0,
         mkPlayer 2 (some Team.red) (-5) 175.5 0 0 0) := by
  have hdist : PhysicsEngine.distance { x := -5, y := 160, vx := 0, vy := 0 }
      { x := -5, y := 161, vx := 0, vy := 0 } = 1 :=
    distance_eval _ _ 1 (by norm_num) (by norm_num)
  have hcol : PhysicsEngine.checkCollision { x := -5, y := 160, vx := 0, vy := 0 }
      { x := -5, y := 161, vx := 0, vy := 0 }
      PhysicsEngine.playerRadius PhysicsEngine.playerRadius := by
    unfold PhysicsEngine.checkCollision
    rw [hdist]
    norm_num [PhysicsEngine.playerRadius]
  have hd : ¬ PhysicsEngine.distance { x := -5, y := 160, vx := 0, vy := 0 }
      { x := -5, y := 161, vx := 0, vy := 0 }
      ≥ PhysicsEngine.playerRadius + PhysicsEngine.playerRadius := by
    rw [hdist]
    norm_num [PhysicsEngine.playerRadius]
  have hnorm : cNormal { x := -5, y := 160, vx := 0, vy := 0 }
      { x := -5, y := 161, vx := 0, vy := 0 } = (0, 1) := by
    unfold cNormal
    norm_num
    rw [normalize_eval 0 1 1 (by norm_num) (by norm_num)]
    norm_num
  have hvn : cVn { x := -5, y := 160, vx := 0, vy := 0 }
      { x := -5, y := 161, vx := 0, vy := 0 } = 0 := by
    unfold cVn
    rw [hnorm]
    unfold PhysicsEngine.dotProduct
    norm_num
  have hv : ¬ cVn { x := -5, y := 160, vx := 0, vy := 0 }
      { x := -5, y := 161, vx := 0, vy := 0 } > 0 := by
    rw [hvn]
    norm_num
  have hsep : cSep { x := -5, y := 160, vx := 0, vy := 0 }
      { x := -5, y := 161, vx := 0, vy := 0 }
      PhysicsEngine.playerRadius PhysicsEngine.playerRadius = 14.5 := by
    unfold cSep
    rw [hdist]
    norm_num [PhysicsEngine.playerRadius]
  have hj : cJ { x := -5, y := 160, vx := 0, vy := 0 }
      { x := -5, y := 161, vx := 0, vy := 0 } 1 1 = 0 := by
    unfold cJ
    rw [hvn]
    norm_num
  unfold GameRoom.collidePair
  simp only [mkPlayer, eq_true hcol, if_true]
  rw [resolveCollision_imp _ _ _ _ _ _ hd hv, hnorm, hsep, hj]
  norm_num

theorem ballPass_C3 :
    GameRoom.ballPass
      [mkPlayer 1 (some Team.red) (-5) 160 0 0 0,
       mkPlayer 2 (some Team.red) (-5) 161 0 0 0]
      { x := 400, y := 100, vx := 0, vy := 0 }
      = ([mkPlayer 1 (some Team.red) (-5) 160 0 0 0,
          mkPlayer 2 (some Team.red) (-5) 161 0 0 0],
         { x := 400, y := 100, vx := 0, vy := 0 }) := by
  have hnc1 : ¬ PhysicsEngine.checkCollision { x := -5, y := 160, vx := 0, vy := 0 }
      { x := 400, y := 100, vx := 0, vy := 0 }
      PhysicsEngine.playerRadius PhysicsEngine.ballRadius :=
    not_collide _ _ _ _
      (by norm_num [PhysicsEngine.playerRadius, PhysicsEngine.ballRadius])
      (by norm_num [PhysicsEngine.playerRadius, PhysicsEngine.ballRadius])
  have hnc2 : ¬ PhysicsEngine.checkCollision { x := -5, y := 161, vx := 0, vy := 0 }
      { x := 400, y := 100, vx := 0, vy := 0 }
      PhysicsEngine.playerRadius PhysicsEngine.ballRadius :=
    not_collide _ _ _ _
      (by norm_num [PhysicsEngine.playerRadius, PhysicsEngine.ballRadius])
      (by norm_num [PhysicsEngine.playerRadius, PhysicsEngine.ballRadius])
  simp [GameRoom.ballPass, mkPlayer, eq_false hnc1, eq_false hnc2]

theorem checkCollisions_C3 :
    GameRoom.checkCollisions
      [mkPlayer 1 (some Team.red) (-5) 160 0 0 0,
       mkPlayer 2 (some Team.red) (-5) 161 0 0 0]
      { x := 400, y := 100, vx := 0, vy := 0 }
      = ([mkPlayer 1 (some Team.red) (-5) 145.5 0 0 0,
          mkPlayer 2 (some Team.red) (-5) 175.5 0 0 0],
         { x := 400, y := 100, vx := 0, vy := 0 }) := by
  unfold GameRoom.checkCollisions
  rw [ballPass_C3]
  have hfil : List.filter (fun p => p.team.isSome)
      [mkPlayer 1 (some Team.red) (-5) 160 0 0 0,
       mkPlayer 2 (some Team.red) (-5) 161 0 0 0]
      = [mkPlayer 1 (some Team.red) (-5) 160 0 0 0,
         mkPlayer 2 (some Team.red) (-5) 161 0 0 0] := rfl
  simp only [hfil]
  rw [pairPass_cons]
  simp only [GameRoom.collideWithAll, collidePair_C3]
  rw [pairPass_cons]
  simp only [GameRoom.collideWithAll]
  rw [pairPass_nil]
  rfl

theorem roomC3_eval :
    GameRoom.updateGame roomC3 1000000
      = { players := [mkPlayer 1 (some Team.red) (-5) 145.5 0 0 0,
                      mkPlayer 2 (some Team.red) (-5) 175.5 0 0 0],
          ball := { x := 400, y := 100, vx := 0, vy := 0 },
          scoreRed := 0, scoreBlue := 0, redTeamCount := 2, blueTeamCount := 0,
          lastUpdate := 1000000, gameTime := 16.67 } := by
  have hskip1 : ¬ ((mkPlayer 1 (some Team.red) (-5) 160 0 0 0).team.isSome = true
      ∧ (mkPlayer 1 (some Team.red) (-5) 160 0 0 0).isActive 1000000) := by
    simp [mkPlayer, Player.isActive]
    norm_num
  have hskip2 : ¬ ((mkPlayer 2 (some Team.red) (-5) 161 0 0 0).team.isSome = true
      ∧ (mkPlayer 2 (some Team.red) (-5) 161 0 0 0).isActive 1000000) := by
    simp [mkPlayer, Player.isActive]
    norm_num
  have hgoal : PhysicsEngine.checkGoal { x := 400, y := 100, vx := 0, vy := 0 }
      = none := by
    unfold PhysicsEngine.checkGoal
    rw [if_neg (by norm_num), if_neg (by norm_num [PhysicsEngine.fieldWidth])]
  unfold GameRoom.updateGame
  simp only [roomC3, GameRoom.motionPhase, GameRoom.goalPhase, List.map_cons,
    List.map_nil, if_neg hskip1, if_neg hskip2, updateBall_C1,
    checkCollisions_C3, hgoal]
  norm_num

theorem updateBall_C2 :
    PhysicsEngine.updateBall { x := 405, y := 200, vx := -1, vy := 0 } 1
      = { x := 404.02, y := 200, vx := -0.98, vy := 0 } := by
  unfold PhysicsEngine.updateBall
  simp only [PhysicsEngine.friction]
  norm_num
  exact constrain_id _ _
    (by norm_num [PhysicsEngine.ballRadius])
    (by norm_num [PhysicsEngine.ballRadius, PhysicsEngine.fieldWidth])
    (by norm_num [PhysicsEngine.ballRadius])
    (by norm_num [PhysicsEngine.ballRadius, PhysicsEngine.fieldHeight])

theorem ballPassAll_C2 :
    GameRoom.ballPassAll [mkPlayer 1 none 400 200 0 0 0]
      { x := 404.02, y := 200, vx := -0.98, vy := 0 }
      = ([mkPlayer 1 none 389.51 200 (-0.588) 0 0],
         { x := 414.51, y := 200, vx := 0.196, vy := 0 }) := by
  have hdist : PhysicsEngine.distance { x := 400, y := 200, vx := 0, vy := 0 }
      { x := 404.02, y := 200, vx := -0.98, vy := 0 } = 4.02 :=
    distance_eval _ _ 4.02 (by norm_num) (by norm_num)
  have hcol : PhysicsEngine.checkCollision { x := 400, y := 200, vx := 0, vy := 0 }
      { x := 404.02, y := 200, vx := -0.98, vy := 0 }
      PhysicsEngine.playerRadius PhysicsEngine.ballRadius := by
    unfold PhysicsEngine.checkCollision
    rw [hdist]
    norm_num [PhysicsEngine.playerRadius, PhysicsEngine.ballRadius]
  have hd : ¬ PhysicsEngine.distance { x := 400, y := 200, vx := 0, vy := 0 }
      { x := 404.02, y := 200, vx := -0.98, vy := 0 }
      ≥ PhysicsEngine.playerRadius + PhysicsEngine.ballRadius := by
    rw [hdist]
    norm_num [PhysicsEngine.playerRadius, PhysicsEngine.ballRadius]
  have hnorm : cNormal { x := 400, y := 200, vx := 0, vy := 0 }
      { x := 404.02, y := 200, vx := -0.98, vy := 0 } = (1, 0) := by
    unfold cNormal
    norm_num
    rw [normalize_eval (201 / 50) 0 (201 / 50) (by norm_num) (by norm_num)]
    norm_num
  have hvn : cVn { x := 400, y := 200, vx := 0, vy := 0 }
      { x := 404.02, y := 200, vx := -0.98, vy := 0 } = -0.98 := by
    unfold cVn
    rw [hnorm]
    unfold PhysicsEngine.dotProduct
    norm_num
  have hv : ¬ cVn { x := 400, y := 200, vx := 0, vy := 0 }
      { x := 404.02, y := 200, vx := -0.98, vy := 0 } > 0 := by
    rw [hvn]
    norm_num
  have hsep : cSep { x := 400, y := 200, vx := 0, vy := 0 }
      { x := 404.02, y := 200, vx := -0.98, vy := 0 }
      PhysicsEngine.playerRadius PhysicsEngine.ballRadius = 10.49 := by
    unfold cSep
    rw [hdist]
    norm_num [PhysicsEngine.playerRadius, PhysicsEngine.ballRadius]
  have hj : cJ { x := 400, y := 200, vx := 0, vy := 0 }
      { x := 404.02, y := 200, vx := -0.98, vy := 0 } 1 0.5 = 0.588 := by
    unfold cJ
    rw [hvn]
    norm_num [PhysicsEngine.bounceRestitution]
  simp only [GameRoom.ballPassAll, mkPlayer, eq_true hcol, if_true]
  rw [resolveCollision_imp _ _ _ _ _ _ hd hv, hnorm, hsep, hj]
  norm_num

theorem roomC2_eval_code :
    GameRoom.updateGame roomC2 1000000
      = { players := [mkPlayer 1 none 400 200 0 0 0],
          ball := { x := 404.02, y := 200, vx := -0.98, vy := 0 },
          scoreRed := 0, scoreBlue := 0, redTeamCount := 0, blueTeamCount := 0,
          lastUpdate := 1000000, gameTime := 16.67 } := by
  have hskip : ¬ ((mkPlayer 1 none 400 200 0 0 0).team.isSome = true
      ∧ (mkPlayer 1 none 400 200 0 0 0).isActive 1000000) := by
    simp [mkPlayer]
  have hgoal : PhysicsEngine.checkGoal { x := 404.02, y := 200, vx := -0.98, vy := 0 }
      = none := by
    unfold PhysicsEngine.checkGoal
    rw [if_neg (by norm_num), if_neg (by norm_num [PhysicsEngine.fieldWidth])]
  have hbp : GameRoom.ballPass [mkPlayer 1 none 400 200 0 0 0]
      { x := 404.02, y := 200, vx := -0.98, vy := 0 }
      = ([mkPlayer 1 none 400 200 0 0 0],
         { x := 404.02, y := 200, vx := -0.98, vy := 0 }) := by
    simp [GameRoom.ballPass, mkPlayer]
  have hcc : GameRoom.checkCollisions [mkPlayer 1 none 400 200 0 0 0]
      { x := 404.02, y := 200, vx := -0.98, vy := 0 }
      = ([mkPlayer 1 none 400 200 0 0 0],
         { x := 404.02, y := 200, vx := -0.98, vy := 0 }) := by
    unfold GameRoom.checkCollisions
    rw [hbp]
    have hfil : List.filter (fun p => p.team.isSome)
        [mkPlayer 1 none 400 200 0 0 0] = [] := rfl
    simp only [hfil]
    rw [pairPass_nil]
    rfl
  unfold GameRoom.updateGame
  simp only [roomC2, GameRoom.motionPhase, GameRoom.goalPhase, List.map_cons,
    List.map_nil, if_neg hskip]
  rw [show ((1000000 : ℝ) - (1000000 - 16.67)) / 16.67 = 1 from by norm_num]
  rw [updateBall_C2, hcc]
  simp only [hgoal]
  norm_num

theorem roomC2_eval_claim :
    GameRoom.updateGameClaim roomC2 1000000
      = { players := [mkPlayer 1 none 389.51 200 (-0.588) 0 0],
          ball := { x := 414.51, y := 200, vx := 0.196, vy := 0 },
          scoreRed := 0, scoreBlue := 0, redTeamCount := 0, blueTeamCount := 0,
          lastUpdate := 1000000, gameTime := 16.67 } := by
  have hskip : ¬ ((mkPlayer 1 none 400 200 0 0 0).team.isSome = true
      ∧ (mkPlayer 1 none 400 200 0 0 0).isActive 1000000) := by
    simp [mkPlayer]
  have hgoal : PhysicsEngine.checkGoal { x := 414.51, y := 200, vx := 0.196, vy := 0 }
      = none := by
    unfold PhysicsEngine.checkGoal
    rw [if_neg (by norm_num), if_neg (by norm_num [PhysicsEngine.fieldWidth])]
  have hcc : GameRoom.checkCollisionsClaim [mkPlayer 1 none 400 200 0 0 0]
      { x := 404.02, y := 200, vx := -0.98, vy := 0 }
      = ([mkPlayer 1 none 389.51 200 (-0.588) 0 0],
         { x := 414.51, y := 200, vx := 0.196, vy := 0 }) := by
    unfold GameRoom.checkCollisionsClaim
    simp only [ballPassAll_C2]
    rw [pairPass_cons]
    simp only [GameRoom.collideWithAll]
    rw [pairPass_nil]
  unfold GameRoom.updateGameClaim
  simp only [roomC2, GameRoom.motionPhase, GameRoom.goalPhase, List.map_cons,
    List.map_nil, if_neg hskip]
  rw [show ((1000000 : ℝ) - (1000000 - 16.67)) / 16.67 = 1 from by norm_num]
  rw [updateBall_C2, hcc]
  simp only [hgoal]
  norm_num

theorem getD_map_players (l : List Player) (f : Player → Player) (i : ℕ)
    (h : i < l.length) : (l.map f).getD i pDefault = f (l.getD i pDefault) := by
  rw [List.getD_eq_getElem?_getD, List.getElem?_map, List.getD_eq_getElem?_getD,
    List.getElem?_eq_getElem h]
  simp

theorem motionPhase_frozen (ps : List Player) (now dt : ℝ) (i : ℕ)
    (hi : i < ps.length)
    (h : (ps.getD i pDefault).team = none ∨ ¬ (ps.getD i pDefault).isActive now) :
    (GameRoom.motionPhase ps now dt).getD i pDefault = ps.getD i pDefault := by
  unfold GameRoom.motionPhase
  rw [getD_map_players _ _ i hi]
  apply if_neg
  rcases h with h | h
  · intro hc
    rw [h] at hc
    simp at hc
  · exact fun hc => h hc.2

theorem motionPhase_team (ps : List Player) (now dt : ℝ) (i : ℕ)
    (hi : i < ps.length) :
    ((GameRoom.motionPhase ps now dt).getD i pDefault).team
      = (ps.getD i pDefault).team := by
  unfold GameRoom.motionPhase
  rw [getD_map_players _ _ i hi]
  split_ifs <;> rfl

theorem ballPass_teamless (ps : List Player) (b : Obj) (i : ℕ)
    (h : (ps.getD i pDefault).team = none) :
    ((GameRoom.ballPass ps b).1).getD i pDefault = ps.getD i pDefault := by
  induction ps generalizing b i with
  | nil => simp [GameRoom.ballPass]
  | cons p rest ih =>
    cases i with
    | zero =>
      rw [List.getD_cons_zero] at h
      simp [GameRoom.ballPass, h]
    | succ n =>
      rw [List.getD_cons_succ] at h
      simp only [GameRoom.ballPass, List.getD_cons_succ]
      exact ih _ n h

theorem mergeTeamed_teamless (ps : List Player) (us : List Player) (i : ℕ)
    (h : (ps.getD i pDefault).team = none) :
    (GameRoom.mergeTeamed ps us).getD i pDefault = ps.getD i pDefault := by
  induction ps generalizing us i with
  | nil => simp [GameRoom.mergeTeamed]
  | cons p rest ih =>
    by_cases hp : p.team.isSome = true
    · cases i with
      | zero =>
        rw [List.getD_cons_zero] at h
        rw [h] at hp
        simp at hp
      | succ n =>
        rw [List.getD_cons_succ] at h
        cases us with
        | nil => simp only [GameRoom.mergeTeamed, if_pos hp, List.getD_cons_succ, ih _ n h]
        | cons u us2 =>
          simp only [GameRoom.mergeTeamed, if_pos hp, List.getD_cons_succ, ih _ n h]
    · cases i with
      | zero => simp [GameRoom.mergeTeamed, hp]
      | succ n =>
        rw [List.getD_cons_succ] at h
        simp only [GameRoom.mergeTeamed, if_neg hp, List.getD_cons_succ, ih _ n h]

theorem checkCollisions_teamless (ps : List Player) (b : Obj) (i : ℕ)
    (h : (ps.getD i pDefault).team = none) :
    ((GameRoom.checkCollisions ps b).1).getD i pDefault = ps.getD i pDefault := by
  show (GameRoom.mergeTeamed (GameRoom.ballPass ps b).1
      (GameRoom.pairPass
        (((GameRoom.ballPass ps b).1).filter (fun p => p.team.isSome)))).getD i pDefault
    = ps.getD i pDefault
  have h1 := ballPass_teamless ps b i h
  have h2 : (((GameRoom.ballPass ps b).1).getD i pDefault).team = none := by
    rw [h1]
    exact h
  rw [mergeTeamed_teamless _ _ i h2]
  exact h1

theorem goalPhase_teamless (rr : GameRoom) (i : ℕ)
    (h : (rr.players.getD i pDefault).team = none) :
    ((GameRoom.goalPhase rr).players).getD i pDefault = rr.players.getD i pDefault := by
  unfold GameRoom.goalPhase
  cases PhysicsEngine.checkGoal rr.ball with
  | none => rfl
  | some t =>
    simp only [GameRoom.handleGoal]
    by_cases hlen : i < rr.players.length
    · rw [getD_map_players _ _ i hlen, if_neg (by rw [h]; simp)]
    · push_neg at hlen
      rw [List.getD_eq_default _ _ (by simpa using hlen),
        List.getD_eq_default _ _ hlen]

theorem updateGame_teamless (r : GameRoom) (now : ℝ) (i : ℕ)
    (hi : i < r.players.length)
    (h : (r.players.getD i pDefault).team = none) :
    ((GameRoom.updateGame r now).players).getD i pDefault
      = r.players.getD i pDefault := by
  have hmi : i < (GameRoom.motionPhase r.players now
      ((now - r.lastUpdate) / 16.67)).length := by
    unfold GameRoom.motionPhase
    simpa using hi
  have hmt : ((GameRoom.motionPhase r.players now
      ((now - r.lastUpdate) / 16.67)).getD i pDefault).team = none := by
    rw [motionPhase_team _ _ _ i hi]
    exact h
  show ((GameRoom.goalPhase
      { r with
          lastUpdate := now
          players := (GameRoom.checkCollisions
            (GameRoom.motionPhase r.players now ((now - r.lastUpdate) / 16.67))
            (PhysicsEngine.updateBall r.ball ((now - r.lastUpdate) / 16.67))).1
          ball := (GameRoom.checkCollisions
            (GameRoom.motionPhase r.players now ((now - r.lastUpdate) / 16.67))
            (PhysicsEngine.updateBall r.ball ((now - r.lastUpdate) / 16.67))).2 }).players).getD
      i pDefault = r.players.getD i pDefault
  rw [goalPhase_teamless _ i (by
    show (((GameRoom.checkCollisions
        (GameRoom.motionPhase r.players now ((now - r.lastUpdate) / 16.67))
        (PhysicsEngine.updateBall r.ball ((now - r.lastUpdate) / 16.67))).1).getD
        i pDefault).team = none
    rw [checkCollisions_teamless _ _ i hmt]
    exact hmt)]
  show (((GameRoom.checkCollisions
      (GameRoom.motionPhase r.players now ((now - r.lastUpdate) / 16.67))
      (PhysicsEngine.updateBall r.ball ((now - r.lastUpdate) / 16.67))).1).getD
      i pDefault) = r.players.getD i pDefault
  rw [checkCollisions_teamless _ _ i hmt]
  exact motionPhase_frozen r.players now _ i hi (Or.inl h)

theorem collidePair_lastSeen (c : ℝ) (p q : Player) :
    GameRoom.collidePair { p with lastSeen := c } { q with lastSeen := c }
      = ({ (GameRoom.collidePair p q).1 with lastSeen := c },
         { (GameRoom.collidePair p q).2 with lastSeen := c }) := by
  unfold GameRoom.collidePair
  by_cases h : PhysicsEngine.checkCollision p.kin q.kin
      PhysicsEngine.playerRadius PhysicsEngine.playerRadius
  · simp only [eq_true h, if_true]
  · simp only [eq_false h, if_false]

theorem collideWithAll_lastSeen (c : ℝ) (p : Player) (ps : List Player) :
    GameRoom.collideWithAll { p with lastSeen := c }
        (ps.map (fun q => { q with lastSeen := c }))
      = ({ (GameRoom.collideWithAll p ps).1 with lastSeen := c },
         ((GameRoom.collideWithAll p ps).2).map (fun q => { q with lastSeen := c })) := by
  induction ps generalizing p with
  | nil => simp [GameRoom.collideWithAll]
  | cons q qs ih =>
    simp only [List.map_cons, GameRoom.collideWithAll, collidePair_lastSeen, ih]

theorem ballPass_lastSeen (c : ℝ) (ps : List Player) (b : Obj) :
    GameRoom.ballPass (ps.map (fun q => { q with lastSeen := c })) b
      = (((GameRoom.ballPass ps b).1).map (fun q => { q with lastSeen := c }),
         (GameRoom.ballPass ps b).2) := by
  induction ps generalizing b with
  | nil => simp [GameRoom.ballPass]
  | cons p rest ih =>
    by_cases h : p.team.isSome = true ∧ PhysicsEngine.checkCollision p.kin b
        PhysicsEngine.playerRadius PhysicsEngine.ballRadius
    · simp only [List.map_cons, GameRoom.ballPass, eq_true h, if_true, ih]
    · simp only [List.map_cons, GameRoom.ballPass, eq_false h, if_false, ih]

theorem filter_lastSeen (c : ℝ) (ps : List Player) :
    (ps.map (fun q => { q with lastSeen := c })).filter (fun p => p.team.isSome)
      = (ps.filter (fun p => p.team.isSome)).map (fun q => { q with lastSeen := c }) := by
  induction ps with
  | nil => rfl
  | cons p rest ih =>
    by_cases h : p.team.isSome = true
    · simp only [List.map_cons, List.filter_cons, h, ih]
      simp
    · simp only [List.map_cons, List.filter_cons, h, ih]
      simp

theorem pairPass_lastSeen_aux (c : ℝ) :
    ∀ (n : ℕ) (ps : List Player), ps.length ≤ n →
      GameRoom.pairPass (ps.map (fun q => { q with lastSeen := c }))
        = (GameRoom.pairPass ps).map (fun q => { q with lastSeen := c }) := by
  intro n
  induction n with
  | zero =>
    intro ps h
    rw [List.length_eq_zero.mp (Nat.le_zero.mp h)]
    simp [pairPass_nil]
  | succ n ih =>
    intro ps h
    cases ps with
    | nil => simp [pairPass_nil]
    | cons p rest =>
      rw [List.map_cons, pairPass_cons, pairPass_cons, collideWithAll_lastSeen]
      rw [List.map_cons]
      have hlen : (GameRoom.collideWithAll p rest).2.length ≤ n := by
        rw [GameRoom.collideWithAll_snd_length]
        simpa using h
      rw [ih _ hlen]

theorem pairPass_lastSeen (c : ℝ) (ps : List Player) :
    GameRoom.pairPass (ps.map (fun q => { q with lastSeen := c }))
      = (GameRoom.pairPass ps).map (fun q => { q with lastSeen := c }) :=
  pairPass_lastSeen_aux c ps.length ps le_rfl

theorem mergeTeamed_lastSeen (c : ℝ) (ps us : List Player) :
    GameRoom.mergeTeamed (ps.map (fun q => { q with lastSeen := c }))
        (us.map (fun q => { q with lastSeen := c }))
      = (GameRoom.mergeTeamed ps us).map (fun q => { q with lastSeen := c }) := by
  induction ps generalizing us with
  | nil => rfl
  | cons p rest ih =>
    by_cases h : p.team.isSome = true
    · cases us with
      | nil => simp only [List.map_cons, List.map_nil, GameRoom.mergeTeamed,
          if_pos h, ← ih []]
      | cons u us2 => simp only [List.map_cons, GameRoom.mergeTeamed,
          if_pos h, ih us2]
    · simp only [List.map_cons, GameRoom.mergeTeamed, if_neg h, ih us]

theorem checkCollisions_lastSeen (ps : List Player) (ball : Obj) (c : ℝ) :
    GameRoom.checkCollisions (ps.map (fun p => { p with lastSeen := c })) ball
      = ((GameRoom.checkCollisions ps ball).1.map (fun p => { p with lastSeen := c }),
         (GameRoom.checkCollisions ps ball).2) := by
  unfold GameRoom.checkCollisions
  simp only [ballPass_lastSeen, filter_lastSeen, pairPass_lastSeen,
    mergeTeamed_lastSeen]

/-! ## Claim theorems -/

/-- C2 counterexample: in `roomC2` a teamless (spectator) player overlaps
the approaching ball, yet the code's tick leaves the ball untouched by the
collision pass (final `vx = -0.98`, pure friction), while the tick the claim
describes — in which teamless players participate in the collision pass
exactly like teamed players — deflects the ball (final `vx = 0.196`): the
spectator does NOT remain collidable. -/
theorem C2_counterexample :
    (GameRoom.updateGame roomC2 1000000).ball.vx
      ≠ (GameRoom.updateGameClaim roomC2 1000000).ball.vx := by
  rw [roomC2_eval_code, roomC2_eval_claim]
  norm_num

/-- C2 (amended): players without a team and inactive teamed players receive
no motion update; inactive teamed players still participate in the collision
pass exactly like active ones (the collision pass is insensitive to every
player's `lastSeen`); but teamless players are excluded from the collision
pass entirely — a teamless player is completely unchanged by a full tick. -/
theorem C2_frozen_players_amended :
    (∀ (ps : List Player) (now dt : ℝ) (i : ℕ), i < ps.length →
      ((ps.getD i pDefault).team = none ∨ ¬ (ps.getD i pDefault).isActive now) →
      (GameRoom.motionPhase ps now dt).getD i pDefault = ps.getD i pDefault) ∧
    (∀ (r : GameRoom) (now : ℝ) (i : ℕ), i < r.players.length →
      (r.players.getD i pDefault).team = none →
      ((GameRoom.updateGame r now).players).getD i pDefault
        = r.players.getD i pDefault) ∧
    (∀ (ps : List Player) (ball : Obj) (c : ℝ),
      GameRoom.checkCollisions (ps.map (fun p => { p with lastSeen := c })) ball
        = ((GameRoom.checkCollisions ps ball).1.map
              (fun p => { p with lastSeen := c }),
           (GameRoom.checkCollisions ps ball).2)) :=
  ⟨motionPhase_frozen, updateGame_teamless, checkCollisions_lastSeen⟩

/-- C2 witness: the amended facts instantiated in `roomC2` (the spectator is
skipped by the motion phase and unchanged by the whole tick) and in `roomC1`
(rewriting every `lastSeen` — switching players between active and inactive —
does not change the collision pass). -/
theorem C2_frozen_players_amended_witness :
    ((0 : ℕ) < roomC2.players.length ∧
      (roomC2.players.getD 0 pDefault).team = none) ∧
    (GameRoom.motionPhase roomC2.players 1000000 1).getD 0 pDefault
        = roomC2.players.getD 0 pDefault ∧
    ((GameRoom.updateGame roomC2 1000000).players).getD 0 pDefault
        = roomC2.players.getD 0 pDefault ∧
    GameRoom.checkCollisions
        (roomC1.players.map (fun p => { p with lastSeen := 424242 }))
        roomC1.ball
      = ((GameRoom.checkCollisions roomC1.players roomC1.ball).1.map
            (fun p => { p with lastSeen := 424242 }),
         (GameRoom.checkCollisions roomC1.players roomC1.ball).2) := by
  have h := C2_frozen_players_amended
  exact ⟨⟨by norm_num [roomC2], rfl⟩,
    h.1 roomC2.players 1000000 1 0 (by norm_num [roomC2]) (Or.inl rfl),
    h.2.1 roomC2 1000000 0 (by norm_num [roomC2]) rfl,
    h.2.2 roomC1.players roomC1.ball 424242⟩

/-- C3 counterexample: in `roomC3` both players' centers and the ball start
inside the permitted region (players at (-5,160) and (-5,161), legally
inside the left goal mouth), yet after the complete resolved tick the
collision pass has pushed player 1's center to (-5, 145.5): x < 0 with y
outside the goal span [160,240], violating the claimed containment. -/
theorem C3_counterexample :
    inAllowedRegion ((roomC3.players.getD 0 pDefault).kin.x)
        ((roomC3.players.getD 0 pDefault).kin.y) ∧
    inAllowedRegion ((roomC3.players.getD 1 pDefault).kin.x)
        ((roomC3.players.getD 1 pDefault).kin.y) ∧
    inAllowedRegion roomC3.ball.x roomC3.ball.y ∧
    ¬ inAllowedRegion
        (((GameRoom.updateGame roomC3 1000000).players.getD 0 pDefault).kin.x)
        (((GameRoom.updateGame roomC3 1000000).players.getD 0 pDefault).kin.y) := by
  refine ⟨?_, ?_, ?_, ?_⟩
  · show inAllowedRegion (-5) 160
    norm_num [inAllowedRegion]
  · show inAllowedRegion (-5) 161
    norm_num [inAllowedRegion]
  · show inAllowedRegion 400 100
    norm_num [inAllowedRegion]
  · rw [roomC3_eval]
    show ¬ inAllowedRegion (-5) 145.5
    norm_num [inAllowedRegion]

/-- C3 (amended): containment holds after the integrate-and-constrain phase
— for every entity and every radius in (0, 160], the center output by
`constrainToBounds` lies in the field rectangle extended by `goalDepth = 20`
only inside the goal span [160,240] — but the collision-resolution phase
that follows in a tick can move a center outside this region, as the
counterexample shows. -/
theorem C3_constrain_in_region (o : Obj) (radius : ℝ)
    (h0 : 0 < radius) (h160 : radius ≤ 160) :
    inAllowedRegion ((PhysicsEngine.constrainToBounds o radius).x)
      ((PhysicsEngine.constrainToBounds o radius).y) := by
  unfold PhysicsEngine.constrainToBounds
  have q1 := constrainLeft_spec o radius
  have q2 := constrainRight_spec (PhysicsEngine.constrainLeft o radius) radius
    h0 h160 q1
  have q3 := constrainTop_spec
    (PhysicsEngine.constrainRight (PhysicsEngine.constrainLeft o radius) radius)
    radius h0 h160 q2
  have q4 := constrainBottom_spec
    (PhysicsEngine.constrainTop
      (PhysicsEngine.constrainRight (PhysicsEngine.constrainLeft o radius) radius)
      radius)
    radius h0 h160 q3
  unfold inAllowedRegion
  rcases q4 with ⟨hx | hx, hy0, hy4⟩
  · left
    exact ⟨by linarith [hx.1], by linarith [hx.2], hy0, hy4⟩
  · right
    exact ⟨by linarith [hx.1], by linarith [hx.2.1], hx.2.2.1, hx.2.2.2⟩

/-- C3 witness: an entity at (-30, 200) with player radius 15 is pushed by
`constrainToBounds` to the goal-depth boundary x = -5 inside the goal span,
a point of the permitted region. -/
theorem C3_constrain_in_region_witness :
    (0 : ℝ) < 15 ∧ (15 : ℝ) ≤ 160 ∧
    inAllowedRegion
      ((PhysicsEngine.constrainToBounds { x := -30, y := 200, vx := -3, vy := 0 } 15).x)
      ((PhysicsEngine.constrainToBounds { x := -30, y := 200, vx := -3, vy := 0 } 15).y) :=
  ⟨by norm_num, by norm_num,
   C3_constrain_in_region { x := -30, y := 200, vx := -3, vy := 0 } 15
     (by norm_num) (by norm_num)⟩

/-- C1 counterexample: in `roomC1` every player starts a tick with speed
4.9 ≤ 5, yet after the complete tick (motion update, collision resolution
and goal handling all included) player 1's speed is √43.4581 ≈ 6.59 > 5: the
player-player impulse in the collision pass is applied after the speed cap
and is not re-clamped. -/
theorem C1_counterexample :
    5 < speed (((GameRoom.updateGame roomC1 1000000).players.getD 0 pDefault).kin) := by
  rw [roomC1_eval]
  have hk : (([mkPlayer 1 (some Team.red) 100 85.5 4.9 (-4.41) 0,
      mkPlayer 2 (some Team.red) 100 115.5 0 (-0.49) 0] : List Player).getD 0
        pDefault).kin
      = { x := 100, y := 85.5, vx := 4.9, vy := -4.41 } := rfl
  rw [hk]
  unfold speed
  rw [show (4.9 : ℝ) * 4.9 + (-4.41) * (-4.41) = 43.4581 from by norm_num]
  exact (Real.lt_sqrt (by norm_num)).mpr (by norm_num)

/-- C1 (amended): the speed cap holds after the per-player motion update —
for every kinematic state, input and dt, the speed of
`updatePlayer(p, input, dt)` is at most `maxSpeed = 5` (indeed at most
`0.98·5` before wall reflections, which only shrink it) — but the
collision-resolution phase that follows in a tick can push a player's speed
above the cap, as the counterexample shows. -/
theorem C1_speed_cap_after_motion (p : Obj) (input : InputState) (dt : ℝ) :
    speed (PhysicsEngine.updatePlayer p input dt) ≤ PhysicsEngine.maxSpeed := by
  unfold PhysicsEngine.updatePlayer
  refine le_trans (speed_constrain_le _ _) ?_
  simp only [speed, PhysicsEngine.friction, PhysicsEngine.maxSpeed]
  rw [speed_friction _ _ 0.98 (by norm_num)]
  refine le_trans ?_ (by norm_num : (0.98 : ℝ) * 5 ≤ 5)
  exact mul_le_mul_of_nonneg_left (clamp_le _ _) (by norm_num)

/-- C4: `checkGoal(ball)` returns a Blue goal exactly when the ball is past
`x < 0` with `y` inside the goal span `[160, 240]`, a Red goal exactly when
it is past `x > 800` with `y` inside that span, and no goal in every other
ball state. -/
theorem C4_checkGoal_characterization (b : Obj) :
    (PhysicsEngine.checkGoal b = some Team.blue ↔
      b.x < 0 ∧ 160 ≤ b.y ∧ b.y ≤ 240) ∧
    (PhysicsEngine.checkGoal b = some Team.red ↔
      800 < b.x ∧ 160 ≤ b.y ∧ b.y ≤ 240) ∧
    (PhysicsEngine.checkGoal b = none ↔
      ¬(b.x < 0 ∧ 160 ≤ b.y ∧ b.y ≤ 240) ∧
      ¬(800 < b.x ∧ 160 ≤ b.y ∧ b.y ≤ 240)) := by
  have h3 : PhysicsEngine.fieldWidth = 800 := rfl
  unfold PhysicsEngine.checkGoal
  rw [goalTop_eq, goalBottom_eq, h3]
  split_ifs with hb hr
  · exact ⟨⟨fun _ => hb, fun _ => rfl⟩,
      ⟨fun h => by simp at h, fun h => absurd h.1 (by linarith [hb.1])⟩,
      ⟨fun h => by simp at h, fun h => absurd hb h.1⟩⟩
  · exact ⟨⟨fun h => by simp at h, fun h => absurd h hb⟩,
      ⟨fun _ => hr, fun _ => rfl⟩,
      ⟨fun h => by simp at h, fun h => absurd hr h.2⟩⟩
  · exact ⟨⟨fun h => by simp at h, fun h => absurd h hb⟩,
      ⟨fun h => by simp at h, fun h => absurd h hr⟩,
      ⟨fun _ => ⟨hb, hr⟩, fun _ => rfl⟩⟩

/-- C7: `autoAssignTeam` assigns a joining player to the team with fewer
members (Red winning ties) when under the cap of 4, else the other team when
under the cap, else Spectator; in particular, with red count 4 and blue
count 1 the joiner goes to Blue. -/
theorem C7_autoAssign_matches_spec (r : GameRoom) (p : Player) :
    ((r.autoAssignTeam p).2).team
      = autoAssignSpecChoice r.redTeamCount r.blueTeamCount ∧
    ((GameRoom.autoAssignTeam
        { r with redTeamCount := 4, blueTeamCount := 1 } p).2).team
      = some Team.blue := by
  constructor
  · unfold GameRoom.autoAssignTeam autoAssignSpecChoice maxTeamSize
    split_ifs <;> simp_all [Player.setTeam_team] <;> omega
  · norm_num [GameRoom.autoAssignTeam, maxTeamSize, Player.setTeam_team]

/-- C5 counterexample: in `roomC5` the red team is full (4 members) and
player 1 is one of them, yet a `switchPlayerTeam` call targeting the full
red team *succeeds* (the player's own membership is decremented before the
cap check), contradicting the claim that a switch targeting a full team
always returns failure. -/
theorem C5_counterexample :
    roomC5.redTeamCount = maxTeamSize ∧
    (GameRoom.switchPlayerTeam roomC5 1 GameRoom.SwitchTarget.red).2 = true :=
  ⟨rfl, rfl⟩

/-- C5 (amended): a `switchPlayerTeam` call targeting a full team *that the
player is not currently on* returns failure and leaves the room — both team
counters and every player — exactly as it was; a call targeting Spectator
always succeeds.  (A call targeting the player's own full team succeeds, as
the counterexample shows.) -/
theorem C5_switchTeam_amended (r : GameRoom) (pid : ℕ) (player : Player)
    (hfind : r.players.find? (fun p => p.id == pid) = some player) :
    (player.team ≠ some Team.red → maxTeamSize ≤ r.redTeamCount →
      GameRoom.switchPlayerTeam r pid GameRoom.SwitchTarget.red = (r, false)) ∧
    (player.team ≠ some Team.blue → maxTeamSize ≤ r.blueTeamCount →
      GameRoom.switchPlayerTeam r pid GameRoom.SwitchTarget.blue = (r, false)) ∧
    (GameRoom.switchPlayerTeam r pid GameRoom.SwitchTarget.spectator).2 = true := by
  unfold GameRoom.switchPlayerTeam
  rw [hfind]
  refine ⟨?_, ?_, ?_⟩
  · intro hteam hfull
    simp only [maxTeamSize] at hfull
    rcases hpt : player.team with _ | t
    · simp only [hpt, maxTeamSize]
      simp
      omega
    · cases t
      · exact absurd hpt hteam
      · simp only [hpt, maxTeamSize]
        simp
        omega
  · intro hteam hfull
    simp only [maxTeamSize] at hfull
    rcases hpt : player.team with _ | t
    · simp only [hpt, maxTeamSize]
      simp
      omega
    · cases t
      · simp only [hpt, maxTeamSize]
        simp
        omega
      · exact absurd hpt hteam
  · rcases hpt : player.team with _ | t
    · simp [hpt]
    · cases t <;> simp [hpt]

/-- C5 witness: in `roomW` (red full with 4 members, player 9 on blue) a
switch of player 9 to the full red team fails and leaves the room unchanged,
and a switch to Spectator succeeds. -/
theorem C5_switchTeam_amended_witness :
    roomW.players.find? (fun p => p.id == 9)
      = some (mkPlayer 9 (some Team.blue) 700 200 3 4 0) ∧
    (mkPlayer 9 (some Team.blue) 700 200 3 4 0).team ≠ some Team.red ∧
    maxTeamSize ≤ roomW.redTeamCount ∧
    GameRoom.switchPlayerTeam roomW 9 GameRoom.SwitchTarget.red = (roomW, false) ∧
    (GameRoom.switchPlayerTeam roomW 9 GameRoom.SwitchTarget.spectator).2 = true := by
  have hfind : roomW.players.find? (fun p => p.id == 9)
      = some (mkPlayer 9 (some Team.blue) 700 200 3 4 0) := rfl
  have hmain := C5_switchTeam_amended roomW 9 (mkPlayer 9 (some Team.blue) 700 200 3 4 0) hfind
  exact ⟨hfind, by simp [mkPlayer], by norm_num [roomW, maxTeamSize],
    hmain.1 (by simp [mkPlayer]) (by norm_num [roomW, maxTeamSize]), hmain.2.2⟩

theorem find?_updateFirst (ps : List Player) (pid : ℕ) (f : Player → Player)
    (hf : ∀ q, (f q).id = q.id) (player : Player)
    (h : ps.find? (fun q => q.id == pid) = some player) :
    (GameRoom.updateFirst ps pid f).find? (fun q => q.id == pid) = some (f player) := by
  induction ps with
  | nil => simp at h
  | cons a l ih =>
    by_cases ha : a.id = pid
    · rw [List.find?_cons_of_pos _ (by simpa using ha)] at h
      rw [GameRoom.updateFirst, if_pos ha,
        List.find?_cons_of_pos _ (by simpa using (hf a).trans ha)]
      simp only [Option.some.injEq] at h
      rw [h]
    · rw [List.find?_cons_of_neg _ (by simpa using ha)] at h
      rw [GameRoom.updateFirst, if_neg ha,
        List.find?_cons_of_neg _ (by simpa using ha)]
      exact ih h

/-- C10: every team assignment through `setTeam` — direct, on auto-assign,
and on every successful `switchPlayerTeam` including a switch to Spectator —
overwrites the player's position with the fixed spot for the new team
(Red (100,200), Blue (700,200), Spectator (400,50)) and zeroes the player's
velocity, regardless of the player's prior kinematic state. -/
theorem C10_team_assignment_teleports (p : Player) (t : Option Team)
    (r : GameRoom) (pid : ℕ) (target : GameRoom.SwitchTarget)
    (r2 : GameRoom) (player : Player) :
    ((p.setTeam t).team = t ∧ (p.setTeam t).kin = spotFor t) ∧
    ((r.autoAssignTeam p).2.kin = spotFor ((r.autoAssignTeam p).2.team)) ∧
    (GameRoom.switchPlayerTeam r pid target = (r2, true) →
      r.players.find? (fun q => q.id == pid) = some player →
      r2.players.find? (fun q => q.id == pid)
          = some (player.setTeam target.toTeam) ∧
        (player.setTeam target.toTeam).kin = spotFor target.toTeam) := by
  refine ⟨⟨Player.setTeam_team p t, Player.setTeam_kin p t⟩, ?_, ?_⟩
  · unfold GameRoom.autoAssignTeam
    split_ifs <;> rw [Player.setTeam_team, Player.setTeam_kin]
  · intro hsw hfind
    refine ⟨?_, Player.setTeam_kin player _⟩
    have hplayers : r2.players
        = GameRoom.updateFirst r.players pid (Player.setTeam · target.toTeam) := by
      unfold GameRoom.switchPlayerTeam at hsw
      rw [hfind] at hsw
      cases target <;>
        simp only [GameRoom.SwitchTarget.toTeam] <;>
        split_ifs at hsw <;> try simp_all
      all_goals try (split at hsw <;> try simp_all)
      all_goals try (split at hsw <;> try simp_all)
      all_goals rw [← hsw]
    rw [hplayers]
    exact find?_updateFirst r.players pid _ (fun q => Player.setTeam_id q _) player hfind

/-- C10 witness: switching player 9 (on Blue, at (700,200) with velocity
(3,4)) to Spectator succeeds and teleports them to (400,50) with zero
velocity. -/
theorem C10_team_assignment_teleports_witness :
    (GameRoom.switchPlayerTeam roomW 9 GameRoom.SwitchTarget.spectator
        = ((GameRoom.switchPlayerTeam roomW 9 GameRoom.SwitchTarget.spectator).1,
           true)) ∧
    roomW.players.find? (fun q => q.id == 9)
        = some (mkPlayer 9 (some Team.blue) 700 200 3 4 0) ∧
    (GameRoom.switchPlayerTeam roomW 9 GameRoom.SwitchTarget.spectator).1.players.find?
        (fun q => q.id == 9)
        = some ((mkPlayer 9 (some Team.blue) 700 200 3 4 0).setTeam none) ∧
    ((mkPlayer 9 (some Team.blue) 700 200 3 4 0).setTeam none).kin
        = { x := 400, y := 50, vx := 0, vy := 0 } := by
  have h2 : (GameRoom.switchPlayerTeam roomW 9 GameRoom.SwitchTarget.spectator).2
      = true := rfl
  have hsw : GameRoom.switchPlayerTeam roomW 9 GameRoom.SwitchTarget.spectator
      = ((GameRoom.switchPlayerTeam roomW 9 GameRoom.SwitchTarget.spectator).1,
         true) := by
    rw [← h2]
  have hfind : roomW.players.find? (fun q => q.id == 9)
      = some (mkPlayer 9 (some Team.blue) 700 200 3 4 0) := rfl
  have hmain := (C10_team_assignment_teleports
    (mkPlayer 9 (some Team.blue) 700 200 3 4 0) none roomW 9
    GameRoom.SwitchTarget.spectator
    (GameRoom.switchPlayerTeam roomW 9 GameRoom.SwitchTarget.spectator).1
    (mkPlayer 9 (some Team.blue) 700 200 3 4 0)).2.2 hsw hfind
  exact ⟨hsw, hfind, hmain.1, hmain.2⟩

/-- C8: on a goal for `team`, exactly that team's score is incremented, the
ball is reset to (400,200) with zero velocity, red players are reset to
(100,200) and blue players to (700,200) with zero velocity and no other
field changed, and spectators are completely untouched. -/
theorem C8_handleGoal_effect (r : GameRoom) (t : Team) :
    ((GameRoom.handleGoal r t).scoreRed
        = (if t = Team.red then r.scoreRed + 1 else r.scoreRed)) ∧
    ((GameRoom.handleGoal r t).scoreBlue
        = (if t = Team.blue then r.scoreBlue + 1 else r.scoreBlue)) ∧
    (GameRoom.handleGoal r t).ball = { x := 400, y := 200, vx := 0, vy := 0 } ∧
    (GameRoom.handleGoal r t).players.length = r.players.length ∧
    (∀ i : ℕ, i < r.players.length →
      ((r.players.getD i pDefault).team = some Team.red →
        (GameRoom.handleGoal r t).players.getD i pDefault
          = { r.players.getD i pDefault with
              kin := { x := 100, y := 200, vx := 0, vy := 0 } }) ∧
      ((r.players.getD i pDefault).team = some Team.blue →
        (GameRoom.handleGoal r t).players.getD i pDefault
          = { r.players.getD i pDefault with
              kin := { x := 700, y := 200, vx := 0, vy := 0 } }) ∧
      ((r.players.getD i pDefault).team = none →
        (GameRoom.handleGoal r t).players.getD i pDefault
          = r.players.getD i pDefault)) := by
  refine ⟨rfl, rfl, rfl, by simp [GameRoom.handleGoal], ?_⟩
  intro i hi
  have hmap : (GameRoom.handleGoal r t).players.getD i pDefault
      = (fun p => if p.team.isSome then p.resetPosition else p)
          (r.players.getD i pDefault) :=
    getD_map_players _ _ i hi
  refine ⟨?_, ?_, ?_⟩
  · intro hteam
    rw [hmap]
    simp only
    generalize r.players.getD i pDefault = q at hteam ⊢
    simp [hteam, Player.resetPosition]
  · intro hteam
    rw [hmap]
    simp only
    generalize r.players.getD i pDefault = q at hteam ⊢
    simp [hteam, Player.resetPosition]
  · intro hteam
    rw [hmap]
    simp only
    generalize r.players.getD i pDefault = q at hteam ⊢
    simp [hteam]

/-- C8 witness: in `roomW8` (one red, one blue, one spectator, all displaced
with nonzero velocity) a red goal increments red's score and resets exactly
the teamed players. -/
theorem C8_handleGoal_effect_witness :
    ((0 : ℕ) < roomW8.players.length ∧ (1 : ℕ) < roomW8.players.length ∧
      (2 : ℕ) < roomW8.players.length) ∧
    (roomW8.players.getD 0 pDefault).team = some Team.red ∧
    (roomW8.players.getD 1 pDefault).team = some Team.blue ∧
    (roomW8.players.getD 2 pDefault).team = none ∧
    (GameRoom.handleGoal roomW8 Team.red).scoreRed = roomW8.scoreRed + 1 ∧
    (GameRoom.handleGoal roomW8 Team.red).players.getD 0 pDefault
      = { roomW8.players.getD 0 pDefault with
          kin := { x := 100, y := 200, vx := 0, vy := 0 } } ∧
    (GameRoom.handleGoal roomW8 Team.red).players.getD 1 pDefault
      = { roomW8.players.getD 1 pDefault with
          kin := { x := 700, y := 200, vx := 0, vy := 0 } } ∧
    (GameRoom.handleGoal roomW8 Team.red).players.getD 2 pDefault
      = roomW8.players.getD 2 pDefault := by
  have h := C8_handleGoal_effect roomW8 Team.red
  refine ⟨⟨by norm_num [roomW8], by norm_num [roomW8], by norm_num [roomW8]⟩,
    rfl, rfl, rfl, by simpa using h.1, ?_, ?_, ?_⟩
  · exact ((h.2.2.2.2 0 (by norm_num [roomW8])).1) rfl
  · exact ((h.2.2.2.2 1 (by norm_num [roomW8])).2.1) rfl
  · exact ((h.2.2.2.2 2 (by norm_num [roomW8])).2.2) rfl

/-- C6: a single `resolveCollision` call conserves total momentum
(`m1·v1 + m2·v2` unchanged, both components), never increases total kinetic
energy, and behaves symmetrically in its argument order:
`resolveCollision(B,A)` produces exactly the swapped result of
`resolveCollision(A,B)`. -/
theorem C6_resolveCollision_conserves (o1 o2 : Obj) (r1 r2 m1 m2 : ℝ)
    (hm1 : 0 < m1) (hm2 : 0 < m2) :
    (m1 * ((PhysicsEngine.resolveCollision o1 o2 r1 r2 m1 m2).1).vx
        + m2 * ((PhysicsEngine.resolveCollision o1 o2 r1 r2 m1 m2).2).vx
        = m1 * o1.vx + m2 * o2.vx) ∧
    (m1 * ((PhysicsEngine.resolveCollision o1 o2 r1 r2 m1 m2).1).vy
        + m2 * ((PhysicsEngine.resolveCollision o1 o2 r1 r2 m1 m2).2).vy
        = m1 * o1.vy + m2 * o2.vy) ∧
    (kineticEnergy m1 (PhysicsEngine.resolveCollision o1 o2 r1 r2 m1 m2).1
        + kineticEnergy m2 (PhysicsEngine.resolveCollision o1 o2 r1 r2 m1 m2).2
        ≤ kineticEnergy m1 o1 + kineticEnergy m2 o2) ∧
    PhysicsEngine.resolveCollision o2 o1 r2 r1 m2 m1
      = ((PhysicsEngine.resolveCollision o1 o2 r1 r2 m1 m2).2,
         (PhysicsEngine.resolveCollision o1 o2 r1 r2 m1 m2).1) := by
  refine ⟨?_, ?_, ?_, resolveCollision_swap o1 o2 r1 r2 m1 m2⟩ <;>
  · by_cases hd : PhysicsEngine.distance o1 o2 ≥ r1 + r2
    · rw [resolveCollision_far o1 o2 r1 r2 m1 m2 hd]
    · have hvn : cVn o1 o2
          = (o2.vx - o1.vx) * (cNormal o1 o2).1
            + (o2.vy - o1.vy) * (cNormal o1 o2).2 := rfl
      have hj : cJ o1 o2 m1 m2
          = -(1 + PhysicsEngine.bounceRestitution) * cVn o1 o2
              / (1 / m1 + 1 / m2) := rfl
      have hn := normalize_sq_or_zero (o2.x - o1.x) (o2.y - o1.y)
      have hcons := impulse_conservation o1.vx o1.vy o2.vx o2.vy
        (cNormal o1 o2).1 (cNormal o1 o2).2 m1 m2 (cVn o1 o2) (cJ o1 o2 m1 m2)
        hm1 hm2 hvn hj hn
      by_cases hv : cVn o1 o2 > 0
      · rw [resolveCollision_sep o1 o2 r1 r2 m1 m2 hd hv]
        all_goals simp [kineticEnergy]
      · rw [resolveCollision_imp o1 o2 r1 r2 m1 m2 hd hv]
        all_goals
          first
            | exact hcons.1
            | exact hcons.2.1
            | exact hcons.2.2

/-- C6 witness: the conservation and order-symmetry facts instantiated at a
concrete overlapping player/ball pair with masses 1 and 1/2. -/
theorem C6_resolveCollision_conserves_witness :
    ((0 : ℝ) < 1 ∧ (0 : ℝ) < 1 / 2) ∧
    ((1 * ((PhysicsEngine.resolveCollision objA objB 15 10 1 (1 / 2)).1).vx
        + 1 / 2 * ((PhysicsEngine.resolveCollision objA objB 15 10 1 (1 / 2)).2).vx
        = 1 * objA.vx + 1 / 2 * objB.vx) ∧
      (1 * ((PhysicsEngine.resolveCollision objA objB 15 10 1 (1 / 2)).1).vy
        + 1 / 2 * ((PhysicsEngine.resolveCollision objA objB 15 10 1 (1 / 2)).2).vy
        = 1 * objA.vy + 1 / 2 * objB.vy) ∧
      (kineticEnergy 1 (PhysicsEngine.resolveCollision objA objB 15 10 1 (1 / 2)).1
        + kineticEnergy (1 / 2) (PhysicsEngine.resolveCollision objA objB 15 10 1 (1 / 2)).2
        ≤ kineticEnergy 1 objA + kineticEnergy (1 / 2) objB) ∧
      PhysicsEngine.resolveCollision objB objA 10 15 (1 / 2) 1
        = ((PhysicsEngine.resolveCollision objA objB 15 10 1 (1 / 2)).2,
           (PhysicsEngine.resolveCollision objA objB 15 10 1 (1 / 2)).1)) :=
  ⟨⟨by norm_num, by norm_num⟩,
   C6_resolveCollision_conserves objA objB 15 10 1 (1 / 2) (by norm_num) (by norm_num)⟩

/-- C9: every position/velocity field emitted in a snapshot (per player via
`getGameData`, and for the ball via `getGameState`) equals the true internal
value rounded to 2 decimal digits, hence differs from it by at most 0.005. -/
theorem C9_snapshot_rounding (p : Player) (r : GameRoom) :
    (p.getGameData.x = round2 p.kin.x ∧ p.getGameData.y = round2 p.kin.y ∧
      p.getGameData.vx = round2 p.kin.vx ∧ p.getGameData.vy = round2 p.kin.vy) ∧
    (|p.getGameData.x - p.kin.x| ≤ 1 / 200 ∧
      |p.getGameData.y - p.kin.y| ≤ 1 / 200 ∧
      |p.getGameData.vx - p.kin.vx| ≤ 1 / 200 ∧
      |p.getGameData.vy - p.kin.vy| ≤ 1 / 200) ∧
    ((GameRoom.getGameStateBall r).x = round2 r.ball.x ∧
      (GameRoom.getGameStateBall r).y = round2 r.ball.y ∧
      (GameRoom.getGameStateBall r).vx = round2 r.ball.vx ∧
      (GameRoom.getGameStateBall r).vy = round2 r.ball.vy) ∧
    (|(GameRoom.getGameStateBall r).x - r.ball.x| ≤ 1 / 200 ∧
      |(GameRoom.getGameStateBall r).y - r.ball.y| ≤ 1 / 200 ∧
      |(GameRoom.getGameStateBall r).vx - r.ball.vx| ≤ 1 / 200 ∧
      |(GameRoom.getGameStateBall r).vy - r.ball.vy| ≤ 1 / 200) ∧
    GameRoom.getGameStatePlayers r = r.players.map Player.getGameData := by
  exact ⟨⟨rfl, rfl, rfl, rfl⟩,
    ⟨round2_close _, round2_close _, round2_close _, round2_close _⟩,
    ⟨rfl, rfl, rfl, rfl⟩,
    ⟨round2_close _, round2_close _, round2_close _, round2_close _⟩, rfl⟩

end

end HaxBall
